import Mathlib

/-! SOME/IP dissector of nDPI (`src/lib/protocols/SOMEIP.c`)

A shallow embedding of `ndpi_search_someip` and the properties of its
classification of a flow's first datagram.

Conventions of the embedding

* C integers are natural numbers; a value read from memory is reduced to the
  width of its C type (`% 256` for a payload byte, `% 65536` for a port field),
  and the one addition of the function, `someip_len + 8`, is reduced `% 2^32`.
* The host byte order is a parameter `le` (`true`: little-endian host), so that
  `ntohl` and `ntohs` are the real conversions and not the identity.
* A read of payload memory goes through a `Fetch`, which may refuse an offset:
  `fetch_checked` refuses every offset outside the payload, `fetch_raw` returns
  whatever byte lies in memory behind the payload.
* `NDPI_LOG` calls have no effect on the flow record and are left out.
* The source text has `struct const` in the declaration of `packet` and a
  stray backslash before a closing bracket in each of the two Magic Cookie
  conditions; the embedding reads the declaration and the conditions without
  them.
-/

namespace SOMEIP

/-! ## Constants of the source file -/

/-- Message type `REQUEST` of `enum SOMEIP_MESSAGE_TYPES`. -/
def REQUEST : Nat := 0x00
/-- Message type `REQUEST_NO_RETURN`. -/
def REQUEST_NO_RETURN : Nat := 0x01
/-- Message type `NOTIFICATION`. -/
def NOTIFICATION : Nat := 0x02
/-- Message type `REQUEST_ACK`. -/
def REQUEST_ACK : Nat := 0x40
/-- Message type `REQUEST_NO_RETURN_ACK`. -/
def REQUEST_NO_RETURN_ACK : Nat := 0x41
/-- Message type `NOTIFICATION_ACK`. -/
def NOTIFICATION_ACK : Nat := 0x42
/-- Message type `RESPONSE`. -/
def RESPONSE : Nat := 0x80
/-- Message type `ERROR`. -/
def ERROR : Nat := 0x81
/-- Message type `RESPONSE_ACK`. -/
def RESPONSE_ACK : Nat := 0xc0
/-- Message type `ERROR_ACK`. -/
def ERROR_ACK : Nat := 0xc1

/-- Return code `E_OK` of `enum SOMEIP_RETURN_CODES`. -/
def E_OK : Nat := 0x00
/-- Return codes from `0x40` (inclusive) and upwards are illegal. -/
def E_RETURN_CODE_LEGAL_THRESHOLD : Nat := 0x40

/-- Message id of the Magic Cookie (`enum SPECIAL_MESSAGE_IDS`). -/
def MSG_MAGIC_COOKIE : Nat := 0xffff0000
/-- Message id of the Magic Cookie ACK. -/
def MSG_MAGIC_COOKIE_ACK : Nat := 0xffff8000
/-- Message id of Service Discovery. -/
def MSG_SD : Nat := 0xffff8100

/-- The one legal protocol version (`enum PROTOCOL_VERSION`). -/
def LEGAL_PROTOCOL_VERSION : Nat := 0x01

/-- Request id of a Magic Cookie (`enum MAGIC_COOKIE_CONSTANTS`). -/
def MC_REQUEST_ID : Nat := 0xDEADBEEF
/-- Length field of a Magic Cookie. -/
def MC_LENGTH : Nat := 0x08
/-- Interface version of a Magic Cookie. -/
def MC_INTERFACE_VERSION : Nat := 0x01

/-- Default client port (`enum DEFAULT_PROTOCOL_PORTS`). -/
def PORT_DEFAULT_CLIENT : Nat := 30491
/-- Default server port. -/
def PORT_DEFAULT_SERVER : Nat := 30501
/-- Default service-discovery port. -/
def PORT_DEFAULT_SD : Nat := 30490

/-! ## Names the source file takes from its headers -/

/-- Modelled from the spec: the protocol id of an unclassified flow, declared
in the nDPI headers (`NDPI_PROTOCOL_UNKNOWN`), which are not part of the
sources at hand. -/
def NDPI_PROTOCOL_UNKNOWN : Nat := 0

/-- Modelled from the spec: the protocol id of SOME/IP, declared in the nDPI
headers (`NDPI_PROTOCOL_SOMEIP`); only its being different from
`NDPI_PROTOCOL_UNKNOWN` matters. -/
def NDPI_PROTOCOL_SOMEIP : Nat := 229

/-- IP protocol number of UDP (`IPPROTO_UDP` of the system headers). -/
def IPPROTO_UDP : Nat := 17
/-- IP protocol number of TCP (`IPPROTO_TCP` of the system headers). -/
def IPPROTO_TCP : Nat := 6

/-- Byte swap of a 16-bit value. -/
def bswap16 (x : Nat) : Nat := (x % 256) * 256 + (x / 256) % 256

/-- Byte swap of a 32-bit value. -/
def bswap32 (x : Nat) : Nat :=
  (x % 256) * 16777216 + (x / 256 % 256) * 65536 + (x / 65536 % 256) * 256
    + (x / 16777216) % 256

/-- The system's `ntohs`: network to host order on 16 bits; a byte swap on a
little-endian host (`le = true`), the identity on a big-endian one. -/
def ntohs (le : Bool) (x : Nat) : Nat := if le then bswap16 x else x % 65536

/-- The system's `ntohl`: network to host order on 32 bits. -/
def ntohl (le : Bool) (x : Nat) : Nat := if le then bswap32 x else x % 4294967296

/-- The value of a `u_int32_t` object whose four bytes in memory, in address
order, are `b0 b1 b2 b3`. -/
def load_u32 (le : Bool) (b0 b1 b2 b3 : Nat) : Nat :=
  if le then b0 + 256 * b1 + 65536 * b2 + 16777216 * b3
  else 16777216 * b0 + 65536 * b1 + 256 * b2 + b3

/-! ## Data model -/

/-- The UDP header as far as the dissector reads it: `dest`, the destination
port field as the host loads it, i.e. still in network byte order. -/
structure udphdr where
  dest : Nat
deriving DecidableEq, Repr

/-- The TCP header as far as the dissector reads it. -/
structure tcphdr where
  dest : Nat
deriving DecidableEq, Repr

/-- The fields of `struct ndpi_packet_struct` the dissector touches.
`payload_packet_len` is the number of bytes of `payload`. -/
structure ndpi_packet_struct where
  detected_protocol_stack : Nat × Nat
  payload : List Nat
  l4_protocol : Nat
  udp : udphdr
  tcp : tcphdr
deriving DecidableEq, Repr

/-- The fields of `struct ndpi_flow_struct` the dissector touches. The
excluded-protocol bitmask is a bit set: bit `p` stands for protocol id `p`. -/
structure ndpi_flow_struct where
  packet : ndpi_packet_struct
  excluded_protocol_bitmask : Nat
deriving DecidableEq, Repr

/-- The field `payload_packet_len` (a `u_int16_t`): the length of the payload. -/
def payload_packet_len (packet : ndpi_packet_struct) : Nat := packet.payload.length

/-- Modelled from the spec: the macro `NDPI_ADD_PROTOCOL_TO_BITMASK` of the nDPI
headers, which sets the bit of one protocol in a bitmask and leaves every
other bit as it is. -/
def NDPI_ADD_PROTOCOL_TO_BITMASK (bitmask proto : Nat) : Nat := bitmask ||| (1 <<< proto)

/-- Modelled from the spec: `ndpi_set_detected_protocol` of the nDPI library,
which records the detected protocol pair in the flow's protocol stack. -/
def ndpi_set_detected_protocol (flow : ndpi_flow_struct) (upper lower : Nat) :
    ndpi_flow_struct :=
  { flow with packet := { flow.packet with detected_protocol_stack := (upper, lower) } }

/-! ## Payload memory -/

/-- A way of reading the byte at an offset from the start of the payload;
`none` means that the read is refused. -/
abbrev Fetch := List Nat → Nat → Option Nat

/-- Reads inside the payload only: an offset at or behind the payload length is
refused. -/
def fetch_checked : Fetch := fun payload i => (payload.get? i).map (· % 256)

/-- Reads as the machine does them: an offset behind the payload yields the
byte `beyond i` that happens to lie there. -/
def fetch_raw (beyond : Nat → Nat) : Fetch :=
  fun payload i => some (payload.getD i (beyond i) % 256)

/-- The expression `*((u_int32_t *)&packet->payload[off])`: four byte reads
combined in host order. -/
def read_u32 (fetch : Fetch) (le : Bool) (payload : List Nat) (off : Nat) : Option Nat :=
  (fetch payload off).bind fun b0 =>
  (fetch payload (off + 1)).bind fun b1 =>
  (fetch payload (off + 2)).bind fun b2 =>
  (fetch payload (off + 3)).bind fun b3 =>
  some (load_u32 le b0 b1 b2 b3)

/-! ## The dissector -/

/-- The function `ndpi_int_someip_add_connection`: entry point when the protocol
is identified. -/
def ndpi_int_someip_add_connection (flow : ndpi_flow_struct) : ndpi_flow_struct :=
  ndpi_set_detected_protocol flow NDPI_PROTOCOL_SOMEIP NDPI_PROTOCOL_UNKNOWN

/-- The statement
`NDPI_ADD_PROTOCOL_TO_BITMASK(flow->excluded_protocol_bitmask, NDPI_PROTOCOL_SOMEIP)`. -/
def exclude_someip (flow : ndpi_flow_struct) : ndpi_flow_struct :=
  { flow with excluded_protocol_bitmask :=
      NDPI_ADD_PROTOCOL_TO_BITMASK flow.excluded_protocol_bitmask NDPI_PROTOCOL_SOMEIP }

/-- The function `ndpi_search_someip`, statement by statement. The result is the
flow record at the function's return, or `none` when a payload read was
refused by `fetch`. -/
def ndpi_search_someip (fetch : Fetch) (le : Bool) (flow : ndpi_flow_struct) :
    Option ndpi_flow_struct :=
  let packet := flow.packet
  if packet.detected_protocol_stack.1 ≠ NDPI_PROTOCOL_UNKNOWN then some flow else
  -- we extract the Message ID and Request ID and check for special cases later
  (read_u32 fetch le packet.payload 0).bind fun w0 =>
  let message_id := ntohl le w0
  (read_u32 fetch le packet.payload 8).bind fun w8 =>
  let request_id := ntohl le w8
  if payload_packet_len packet < 16 then some (exclude_someip flow) else
  -- we extract the remaining length
  (read_u32 fetch le packet.payload 4).bind fun w4 =>
  let someip_len := ntohl le w4
  if payload_packet_len packet ≠ (someip_len + 8) % 4294967296 then
    some (exclude_someip flow) else
  (fetch packet.payload 12).bind fun protocol_version =>
  if protocol_version ≠ LEGAL_PROTOCOL_VERSION then some (exclude_someip flow) else
  (fetch packet.payload 13).bind fun interface_version =>
  (fetch packet.payload 14).bind fun message_type =>
  if message_type ≠ REQUEST ∧ message_type ≠ REQUEST_NO_RETURN ∧
      message_type ≠ NOTIFICATION ∧ message_type ≠ REQUEST_ACK ∧
      message_type ≠ REQUEST_NO_RETURN_ACK ∧ message_type ≠ NOTIFICATION_ACK ∧
      message_type ≠ RESPONSE ∧ message_type ≠ ERROR ∧
      message_type ≠ RESPONSE_ACK ∧ message_type ≠ ERROR_ACK then
    some (exclude_someip flow) else
  (fetch packet.payload 15).bind fun return_code =>
  if return_code ≥ E_RETURN_CODE_LEGAL_THRESHOLD then some (exclude_someip flow) else
  if message_id = MSG_MAGIC_COOKIE then
    if someip_len = MC_LENGTH ∧ request_id = MC_REQUEST_ID ∧
        interface_version = MC_INTERFACE_VERSION ∧
        message_type = REQUEST_NO_RETURN ∧ return_code = E_OK then
      some (ndpi_int_someip_add_connection flow)
    else some (exclude_someip flow)
  else
  if message_id = MSG_MAGIC_COOKIE_ACK then
    if someip_len = MC_LENGTH ∧ request_id = MC_REQUEST_ID ∧
        interface_version = MC_INTERFACE_VERSION ∧
        message_type = REQUEST_NO_RETURN ∧ return_code = E_OK then
      some (ndpi_int_someip_add_connection flow)
    else some (exclude_someip flow)
  else
  -- `if (message_id == MSG_SD)` only logs
  -- Filtering by port.
  if packet.l4_protocol = IPPROTO_UDP ∧
      (packet.udp.dest % 65536 = ntohs le PORT_DEFAULT_CLIENT ∨
       packet.udp.dest % 65536 = ntohs le PORT_DEFAULT_SERVER ∨
       packet.udp.dest % 65536 = ntohs le PORT_DEFAULT_SD) then
    some (ndpi_int_someip_add_connection flow)
  else
  if packet.l4_protocol = IPPROTO_TCP ∧
      (packet.tcp.dest % 65536 = ntohs le PORT_DEFAULT_CLIENT ∨
       packet.tcp.dest % 65536 = ntohs le PORT_DEFAULT_SERVER) then
    some (ndpi_int_someip_add_connection flow)
  else some (exclude_someip flow)


/-! ## Vocabulary of the properties -/

/-- The byte at offset `i` of a payload (`0` where the payload has no such byte). -/
def payload_byte (payload : List Nat) (i : Nat) : Nat := payload.getD i 0 % 256

/-- The 32-bit value in network byte order at offset `off` of a payload. -/
def be32_at (payload : List Nat) (off : Nat) : Nat :=
  16777216 * payload_byte payload off + 65536 * payload_byte payload (off + 1)
    + 256 * payload_byte payload (off + 2) + payload_byte payload (off + 3)

/-- The destination port number of the UDP header, decoded from the wire. -/
def udp_dest_port (le : Bool) (packet : ndpi_packet_struct) : Nat := ntohs le packet.udp.dest

/-- The destination port number of the TCP header, decoded from the wire. -/
def tcp_dest_port (le : Bool) (packet : ndpi_packet_struct) : Nat := ntohs le packet.tcp.dest

/-- The destination port number of the transport header in use. -/
def dest_port (le : Bool) (packet : ndpi_packet_struct) : Nat :=
  if packet.l4_protocol = IPPROTO_UDP then udp_dest_port le packet else tcp_dest_port le packet

/-- The byte is one of the ten legal message types. -/
def legal_message_type (t : Nat) : Prop :=
  t = 0x00 ∨ t = 0x01 ∨ t = 0x02 ∨ t = 0x40 ∨ t = 0x41 ∨ t = 0x42 ∨ t = 0x80 ∨ t = 0x81 ∨
    t = 0xC0 ∨ t = 0xC1

instance (t : Nat) : Decidable (legal_message_type t) := by
  unfold legal_message_type; infer_instance

/-- The five structural gates on a payload. -/
def structural_gates (payload : List Nat) : Prop :=
  16 ≤ payload.length ∧ payload.length = be32_at payload 4 + 8 ∧
    payload_byte payload 12 = 1 ∧ legal_message_type (payload_byte payload 14) ∧
    payload_byte payload 15 < 0x40

instance (payload : List Nat) : Decidable (structural_gates payload) := by
  unfold structural_gates; infer_instance

/-- The message id is that of a Magic Cookie or of a Magic Cookie ACK. -/
def handshake_id (m : Nat) : Prop := m = 0xFFFF0000 ∨ m = 0xFFFF8000

instance (m : Nat) : Decidable (handshake_id m) := by
  unfold handshake_id; infer_instance

/-- The five fields a handshake message fixes. -/
def handshake_fields (payload : List Nat) : Prop :=
  be32_at payload 4 = 8 ∧ be32_at payload 8 = 0xDEADBEEF ∧ payload_byte payload 13 = 1 ∧
    payload_byte payload 14 = 0x01 ∧ payload_byte payload 15 = 0x00

instance (payload : List Nat) : Decidable (handshake_fields payload) := by
  unfold handshake_fields; infer_instance

/-- The packet goes to a default port of its transport protocol. -/
def default_port (le : Bool) (packet : ndpi_packet_struct) : Prop :=
  (packet.l4_protocol = 17 ∧
    (udp_dest_port le packet = 30491 ∨ udp_dest_port le packet = 30501 ∨
      udp_dest_port le packet = 30490)) ∨
  (packet.l4_protocol = 6 ∧
    (tcp_dest_port le packet = 30491 ∨ tcp_dest_port le packet = 30501))

instance (le : Bool) (packet : ndpi_packet_struct) : Decidable (default_port le packet) := by
  unfold default_port; infer_instance

/-- The condition under which a packet is to be confirmed as SOME/IP. -/
def someip_accepts (le : Bool) (packet : ndpi_packet_struct) : Prop :=
  structural_gates packet.payload ∧
    ((handshake_id (be32_at packet.payload 0) ∧ handshake_fields packet.payload) ∨
     (¬ handshake_id (be32_at packet.payload 0) ∧ default_port le packet))

instance (le : Bool) (packet : ndpi_packet_struct) : Decidable (someip_accepts le packet) := by
  unfold someip_accepts; infer_instance

/-- The flow is not yet classified. -/
def unclassified (flow : ndpi_flow_struct) : Prop :=
  flow.packet.detected_protocol_stack.1 = NDPI_PROTOCOL_UNKNOWN

instance (flow : ndpi_flow_struct) : Decidable (unclassified flow) := by
  unfold unclassified; infer_instance

/-- The condition the function tests behind the length floor, with the
length-field test as the machine computes it (`someip_len + 8` on 32 bits). -/
def passes (le : Bool) (packet : ndpi_packet_struct) : Prop :=
  packet.payload.length = (be32_at packet.payload 4 + 8) % 4294967296 ∧
    payload_byte packet.payload 12 = 1 ∧
    legal_message_type (payload_byte packet.payload 14) ∧
    payload_byte packet.payload 15 < 0x40 ∧
    ((handshake_id (be32_at packet.payload 0) ∧ handshake_fields packet.payload) ∨
     (¬ handshake_id (be32_at packet.payload 0) ∧ default_port le packet))

/-! ## The algorithm of the specification (section 4.1), in its own words -/

/-- The two outcomes of the classifier. -/
inductive Classification where
  | Confirmed
  | Excluded
deriving DecidableEq, Repr

/-- The header parsed from the first 16 bytes of a payload, all multi-byte
fields in network byte order. -/
structure SomeIpHeader where
  message_id : Nat
  length : Nat
  request_id : Nat
  protocol_version : Nat
  interface_version : Nat
  message_type : Nat
  return_code : Nat
deriving DecidableEq, Repr

/-- Parsing of the wire format of section 6 of the specification. -/
def parse_header (payload : List Nat) : SomeIpHeader :=
  { message_id := be32_at payload 0
    length := be32_at payload 4
    request_id := be32_at payload 8
    protocol_version := payload_byte payload 12
    interface_version := payload_byte payload 13
    message_type := payload_byte payload 14
    return_code := payload_byte payload 15 }

/-- The ordered gate sequence of section 4.1 of the specification: steps 1 to 5
are the structural gates, steps 6 and 7 the two handshake messages, step 8 (the
recognition of Service Discovery) decides nothing, step 9 is the port-based
fallback. -/
def classify_spec (payload : List Nat) (protocol dest_port : Nat) : Classification :=
  if ¬ (payload.length ≥ 16) then Classification.Excluded else
  let h := parse_header payload
  if ¬ (payload.length = h.length + 8) then Classification.Excluded else
  if ¬ (h.protocol_version = 1) then Classification.Excluded else
  if ¬ (h.message_type ∈ [0x00, 0x01, 0x02, 0x40, 0x41, 0x42, 0x80, 0x81, 0xC0, 0xC1]) then
    Classification.Excluded else
  if ¬ (h.return_code < 0x40) then Classification.Excluded else
  if h.message_id = 0xFFFF0000 then
    if h.length = 8 ∧ h.request_id = 0xDEADBEEF ∧ h.interface_version = 1 ∧
        h.message_type = 0x01 ∧ h.return_code = 0x00 then Classification.Confirmed
    else Classification.Excluded
  else if h.message_id = 0xFFFF8000 then
    if h.length = 8 ∧ h.request_id = 0xDEADBEEF ∧ h.interface_version = 1 ∧
        h.message_type = 0x01 ∧ h.return_code = 0x00 then Classification.Confirmed
    else Classification.Excluded
  else
  if protocol = 17 ∧ dest_port ∈ [30491, 30501, 30490] then Classification.Confirmed
  else if protocol = 6 ∧ dest_port ∈ [30491, 30501] then Classification.Confirmed
  else Classification.Excluded

/-- The effect on the flow record that goes with an outcome. -/
def apply_classification (flow : ndpi_flow_struct) : Classification → ndpi_flow_struct
  | Classification.Confirmed => ndpi_int_someip_add_connection flow
  | Classification.Excluded => exclude_someip flow

/-! ## Concrete packets -/

/-- An unclassified flow with nothing excluded yet, whose first packet has the
given payload, transport protocol and destination port field. -/
def first_packet_flow (payload : List Nat) (l4 dest : Nat) : ndpi_flow_struct :=
  { packet :=
      { detected_protocol_stack := (NDPI_PROTOCOL_UNKNOWN, NDPI_PROTOCOL_UNKNOWN)
        payload := payload
        l4_protocol := l4
        udp := { dest := dest }
        tcp := { dest := dest } }
    excluded_protocol_bitmask := 0 }

/-- The Magic Cookie: `FF FF 00 00 00 00 00 08 DE AD BE EF 01 01 01 00`. -/
def magic_cookie : List Nat :=
  [0xFF, 0xFF, 0x00, 0x00, 0x00, 0x00, 0x00, 0x08, 0xDE, 0xAD, 0xBE, 0xEF, 0x01, 0x01, 0x01, 0x00]

/-- The Magic Cookie ACK: `FF FF 80 00 00 00 00 08 DE AD BE EF 01 01 01 00`. -/
def magic_cookie_ack : List Nat :=
  [0xFF, 0xFF, 0x80, 0x00, 0x00, 0x00, 0x00, 0x08, 0xDE, 0xAD, 0xBE, 0xEF, 0x01, 0x01, 0x01, 0x00]

/-- The Magic Cookie with its return code changed to `0x01`. -/
def magic_cookie_near_miss : List Nat :=
  [0xFF, 0xFF, 0x00, 0x00, 0x00, 0x00, 0x00, 0x08, 0xDE, 0xAD, 0xBE, 0xEF, 0x01, 0x01, 0x01, 0x01]

/-- A general request: `00 01 00 02 00 00 00 08 00 00 00 01 01 01 00 00`. -/
def general_request : List Nat :=
  [0x00, 0x01, 0x00, 0x02, 0x00, 0x00, 0x00, 0x08, 0x00, 0x00, 0x00, 0x01, 0x01, 0x01, 0x00, 0x00]

/-- The Magic Cookie with the illegal return code `0x40`. -/
def illegal_return_code : List Nat :=
  [0xFF, 0xFF, 0x00, 0x00, 0x00, 0x00, 0x00, 0x08, 0xDE, 0xAD, 0xBE, 0xEF, 0x01, 0x01, 0x01, 0x40]

/-- A payload of 20 bytes whose length field encodes 8. -/
def length_mismatch : List Nat :=
  [0x00, 0x01, 0x00, 0x02, 0x00, 0x00, 0x00, 0x08, 0x00, 0x00, 0x00, 0x01, 0x01, 0x01, 0x00, 0x00,
   0x00, 0x00, 0x00, 0x00]

/-- The SOME/IP bit of the excluded bitmask and the detected protocol as a
confirmation leaves them: the detected protocol is SOME/IP, the bitmask is the
one of before. -/
def confirmed_effect (before after : ndpi_flow_struct) : Prop :=
  after.packet.detected_protocol_stack.1 = NDPI_PROTOCOL_SOMEIP ∧
    after.excluded_protocol_bitmask = before.excluded_protocol_bitmask

/-- The excluded bitmask and the detected protocol as an exclusion leaves them:
the SOME/IP bit is set, every other bit is the one of before, the detected
protocol is unknown. -/
def excluded_effect (before after : ndpi_flow_struct) : Prop :=
  after.excluded_protocol_bitmask.testBit NDPI_PROTOCOL_SOMEIP = true ∧
    (∀ i, i ≠ NDPI_PROTOCOL_SOMEIP →
      after.excluded_protocol_bitmask.testBit i = before.excluded_protocol_bitmask.testBit i) ∧
    after.packet.detected_protocol_stack.1 = NDPI_PROTOCOL_UNKNOWN

/-- The flow with the payload of its packet replaced. -/
def with_payload (flow : ndpi_flow_struct) (payload : List Nat) : ndpi_flow_struct :=
  { flow with packet := { flow.packet with payload := payload } }

/-- The payload with its message id, the bytes at offsets 0 to 3, replaced. -/
def set_message_id (payload : List Nat) (b0 b1 b2 b3 : Nat) : List Nat :=
  (((payload.set 0 b0).set 1 b1).set 2 b2).set 3 b3

/-- The payload with its request id, the bytes at offsets 8 to 11, and its
interface version, the byte at offset 13, replaced. -/
def set_request_id_interface_version (payload : List Nat) (r0 r1 r2 r3 iv : Nat) : List Nat :=
  ((((payload.set 8 r0).set 9 r1).set 10 r2).set 11 r3).set 13 iv

/-- A Service Discovery notification: `FF FF 81 00 00 00 00 08 00 00 00 01 01 01 02 00`. -/
def service_discovery : List Nat :=
  [0xFF, 0xFF, 0x81, 0x00, 0x00, 0x00, 0x00, 0x08, 0x00, 0x00, 0x00, 0x01, 0x01, 0x01, 0x02, 0x00]

/-- The Magic Cookie with protocol version 2. -/
def magic_cookie_version_2 : List Nat :=
  [0xFF, 0xFF, 0x00, 0x00, 0x00, 0x00, 0x00, 0x08, 0xDE, 0xAD, 0xBE, 0xEF, 0x02, 0x01, 0x01, 0x00]

/-- A flow whose detected protocol is `proto` and whose excluded bitmask is
`excluded`, with a packet of the given payload, transport protocol and
destination port field. -/
def flow_in_state (proto excluded : Nat) (payload : List Nat) (l4 dest : Nat) :
    ndpi_flow_struct :=
  { packet :=
      { detected_protocol_stack := (proto, NDPI_PROTOCOL_UNKNOWN)
        payload := payload
        l4_protocol := l4
        udp := { dest := dest }
        tcp := { dest := dest } }
    excluded_protocol_bitmask := excluded }

/-- A general request of 20 bytes, the header
`00 01 00 02 00 00 00 0C 00 00 00 01 01 01 00 00` followed by four bytes of
body. -/
def request_with_body (t0 t1 t2 t3 : Nat) : List Nat :=
  [0x00, 0x01, 0x00, 0x02, 0x00, 0x00, 0x00, 0x0C, 0x00, 0x00, 0x00, 0x01, 0x01, 0x01, 0x00, 0x00,
   t0, t1, t2, t3]

/-! ## Byte order and memory lemmas -/

/-- On both hosts `ntohl` of a 32-bit load is the value in network byte order. -/
theorem ntohl_load_u32 (le : Bool) (a b c d : Nat) :
    ntohl le (load_u32 le (a % 256) (b % 256) (c % 256) (d % 256))
      = 16777216 * (a % 256) + 65536 * (b % 256) + 256 * (c % 256) + d % 256 := by
  cases le
  · simp only [ntohl, load_u32, Bool.false_eq_true, if_false]
    omega
  · simp only [ntohl, load_u32, if_true, bswap32]
    omega

/-- The port test of the source, `dest == ntohs(P)`, compares the decoded port
number with `P` on both hosts. -/
theorem ntohs_test (le : Bool) (d P : Nat) (hP : P < 65536) :
    d % 65536 = ntohs le P ↔ ntohs le d = P := by
  cases le
  · simp only [ntohs, Bool.false_eq_true, if_false]
    omega
  · simp only [ntohs, if_true, bswap16]
    have h1 : d % 65536 = (d / 256 % 256) * 256 + d % 256 := by omega
    have h2 : P / 256 % 256 = P / 256 := by omega
    rw [h1, h2]
    omega

/-- Inside a list the default of `getD` plays no part. -/
theorem getD_inside (l : List Nat) (i x : Nat) (h : i < l.length) :
    l.getD i x = l.getD i 0 := by
  rw [List.getD_eq_getElem _ _ h, List.getD_eq_getElem _ _ h]

/-- With raw reads a 32-bit read never fails. -/
theorem read_u32_raw (beyond : Nat → Nat) (le : Bool) (payload : List Nat) (off : Nat) :
    read_u32 (fetch_raw beyond) le payload off
      = some (load_u32 le (payload.getD off (beyond off) % 256)
          (payload.getD (off + 1) (beyond (off + 1)) % 256)
          (payload.getD (off + 2) (beyond (off + 2)) % 256)
          (payload.getD (off + 3) (beyond (off + 3)) % 256)) := rfl

/-- With raw reads of a payload of at most 15 bytes the function excludes. -/
theorem search_raw_short (beyond : Nat → Nat) (le : Bool) (flow : ndpi_flow_struct)
    (hU : unclassified flow) (hL : flow.packet.payload.length < 16) :
    ndpi_search_someip (fetch_raw beyond) le flow = some (exclude_someip flow) := by
  unfold unclassified at hU
  simp [ndpi_search_someip, read_u32_raw, hU, payload_packet_len, hL]

/-- The message-type test of the source is the negation of membership in the
legal set. -/
theorem mt_iff (t : Nat) :
    (t ≠ 0 ∧ t ≠ 1 ∧ t ≠ 2 ∧ t ≠ 64 ∧ t ≠ 65 ∧ t ≠ 66 ∧ t ≠ 128 ∧ t ≠ 129 ∧ t ≠ 192 ∧ t ≠ 193)
      ↔ ¬ (t = 0 ∨ t = 1 ∨ t = 2 ∨ t = 64 ∨ t = 65 ∨ t = 66 ∨ t = 128 ∨ t = 129 ∨ t = 192 ∨
            t = 193) := by
  simp only [not_or, ne_eq]

/-- The chain of early returns of the function, over its header fields as plain
numbers: it yields `A` under the condition `C` and `B` otherwise. -/
theorem gate_chain {α : Type} (A B F : α) (L v m r p12 p13 p14 p15 l4 du dt : Nat)
    (hL : 16 ≤ L) :
    let C := L = (v + 8) % 4294967296 ∧
        p12 = 1 ∧
          (p14 = 0 ∨
              p14 = 1 ∨ p14 = 2 ∨ p14 = 64 ∨ p14 = 65 ∨ p14 = 66 ∨ p14 = 128 ∨ p14 = 129 ∨ p14 = 192 ∨ p14 = 193) ∧
            p15 < 64 ∧
              ((m = 4294901760 ∨ m = 4294934528) ∧ v = 8 ∧ r = 3735928559 ∧ p13 = 1 ∧ p14 = 1 ∧ p15 = 0 ∨
                ¬(m = 4294901760 ∨ m = 4294934528) ∧
                  (l4 = 17 ∧ (du = 30491 ∨ du = 30501 ∨ du = 30490) ∨ l4 = 6 ∧ (dt = 30491 ∨ dt = 30501)))
    let R := (if 0 ≠ 0 then some F
        else
          if L < 16 then some B
          else
            if L ≠ (v + 8) % 4294967296 then some B
            else
              if p12 ≠ 1 then some B
              else
                if
                    p14 ≠ 0 ∧
                      p14 ≠ 1 ∧
                        p14 ≠ 2 ∧ p14 ≠ 64 ∧ p14 ≠ 65 ∧ p14 ≠ 66 ∧ p14 ≠ 128 ∧ p14 ≠ 129 ∧ p14 ≠ 192 ∧ p14 ≠ 193 then
                  some B
                else
                  if p15 ≥ 64 then some B
                  else
                    if m = 4294901760 then
                      if v = 8 ∧ r = 3735928559 ∧ p13 = 1 ∧ p14 = 1 ∧ p15 = 0 then some A else some B
                    else
                      if m = 4294934528 then
                        if v = 8 ∧ r = 3735928559 ∧ p13 = 1 ∧ p14 = 1 ∧ p15 = 0 then some A else some B
                      else
                        if l4 = 17 ∧ (du = 30491 ∨ du = 30501 ∨ du = 30490) then some A
                        else if l4 = 6 ∧ (dt = 30491 ∨ dt = 30501) then some A else some B)
    (C → R = some A) ∧ (¬ C → R = some B) := by
  intro C R
  simp only [C, R]
  rw [if_neg (by omega : ¬ (0 : Nat) ≠ 0), if_neg (by omega : ¬ L < 16)]
  simp only [mt_iff, ge_iff_le, ← Nat.not_lt, ne_eq]
  by_cases c2 : L = (v + 8) % 4294967296 <;>
  by_cases c3 : p12 = 1 <;>
  by_cases c4 : (p14 = 0 ∨ p14 = 1 ∨ p14 = 2 ∨ p14 = 64 ∨ p14 = 65 ∨ p14 = 66 ∨ p14 = 128 ∨
      p14 = 129 ∨ p14 = 192 ∨ p14 = 193) <;>
  by_cases c5 : p15 < 64 <;>
  simp only [c2, c3, c4, c5, not_true_eq_false, not_false_eq_true, if_true, if_false,
    true_and, false_and, and_true, and_false, false_implies, true_implies, implies_true]
  by_cases c6 : m = 4294901760 <;>
  by_cases c8 : m = 4294934528 <;>
  by_cases c7 : (v = 8 ∧ r = 3735928559 ∧ p13 = 1 ∧ p14 = 1 ∧ p15 = 0) <;>
  by_cases c9 : (l4 = 17 ∧ (du = 30491 ∨ du = 30501 ∨ du = 30490)) <;>
  by_cases c10 : (l4 = 6 ∧ (dt = 30491 ∨ dt = 30501)) <;>
  simp only [c6, c7, c8, c9, c10, not_true_eq_false, not_false_eq_true,
    if_true, if_false, true_and, false_and, and_true, and_false, false_implies, true_implies,
    implies_true, or_true, true_or, or_false, false_or, or_self, and_self, ite_self]

/-- With raw reads of a payload of 16 bytes or more the function confirms when
`passes` holds and excludes when it does not. -/
theorem search_raw_norm (beyond : Nat → Nat) (le : Bool) (flow : ndpi_flow_struct)
    (hU : unclassified flow) (hL : 16 ≤ flow.packet.payload.length) :
    (passes le flow.packet →
      ndpi_search_someip (fetch_raw beyond) le flow
        = some (ndpi_int_someip_add_connection flow)) ∧
    (¬ passes le flow.packet →
      ndpi_search_someip (fetch_raw beyond) le flow = some (exclude_someip flow)) := by
  unfold unclassified at hU
  have g : ∀ i, i < 16 → flow.packet.payload.getD i (beyond i) = flow.packet.payload.getD i 0 :=
    fun i hi => getD_inside _ _ _ (by omega)
  simp only [ndpi_search_someip, read_u32_raw, hU, payload_packet_len, Option.some_bind,
    fetch_raw, ntohl_load_u32, g 0 (by omega), g 1 (by omega), g 2 (by omega), g 3 (by omega),
    g 4 (by omega), g 5 (by omega), g 6 (by omega), g 7 (by omega), g 8 (by omega),
    g 9 (by omega), g 10 (by omega), g 11 (by omega), g 12 (by omega), g 13 (by omega),
    g 14 (by omega), g 15 (by omega)]
  simp only [ntohs_test _ _ _ (by decide : PORT_DEFAULT_CLIENT < 65536),
    ntohs_test _ _ _ (by decide : PORT_DEFAULT_SERVER < 65536),
    ntohs_test _ _ _ (by decide : PORT_DEFAULT_SD < 65536)]
  simp only [passes, be32_at, payload_byte, legal_message_type, handshake_id, handshake_fields,
    default_port, udp_dest_port, tcp_dest_port, REQUEST, REQUEST_NO_RETURN, NOTIFICATION,
    REQUEST_ACK, REQUEST_NO_RETURN_ACK, NOTIFICATION_ACK, RESPONSE, ERROR, RESPONSE_ACK,
    ERROR_ACK, E_OK, E_RETURN_CODE_LEGAL_THRESHOLD, MSG_MAGIC_COOKIE, MSG_MAGIC_COOKIE_ACK,
    LEGAL_PROTOCOL_VERSION, MC_REQUEST_ID, MC_LENGTH, MC_INTERFACE_VERSION,
    PORT_DEFAULT_CLIENT, PORT_DEFAULT_SERVER, PORT_DEFAULT_SD, IPPROTO_UDP, IPPROTO_TCP,
    NDPI_PROTOCOL_UNKNOWN, Nat.reduceAdd]
  generalize 16777216 * (flow.packet.payload.getD 0 0 % 256)
    + 65536 * (flow.packet.payload.getD 1 0 % 256) + 256 * (flow.packet.payload.getD 2 0 % 256)
    + flow.packet.payload.getD 3 0 % 256 = m
  generalize 16777216 * (flow.packet.payload.getD 4 0 % 256)
    + 65536 * (flow.packet.payload.getD 5 0 % 256) + 256 * (flow.packet.payload.getD 6 0 % 256)
    + flow.packet.payload.getD 7 0 % 256 = v
  generalize 16777216 * (flow.packet.payload.getD 8 0 % 256)
    + 65536 * (flow.packet.payload.getD 9 0 % 256) + 256 * (flow.packet.payload.getD 10 0 % 256)
    + flow.packet.payload.getD 11 0 % 256 = r
  generalize flow.packet.payload.getD 12 0 % 256 = p12
  generalize flow.packet.payload.getD 13 0 % 256 = p13
  generalize flow.packet.payload.getD 14 0 % 256 = p14
  generalize flow.packet.payload.getD 15 0 % 256 = p15
  generalize ntohs le flow.packet.udp.dest = du
  generalize ntohs le flow.packet.tcp.dest = dt
  generalize flow.packet.l4_protocol = l4
  generalize flow.packet.payload.length = L at hL
  generalize ndpi_int_someip_add_connection flow = A
  generalize exclude_someip flow = B
  exact gate_chain A B flow L v m r p12 p13 p14 p15 l4 du dt hL

/-! ## Consequences of the gate chain -/

/-- On an unclassified flow the two effects differ. -/
theorem confirm_ne_exclude (flow : ndpi_flow_struct) (hU : unclassified flow) :
    ndpi_int_someip_add_connection flow ≠ exclude_someip flow := by
  unfold unclassified at hU
  intro h
  have h2 := congrArg (fun f => f.packet.detected_protocol_stack.1) h
  simp only [ndpi_int_someip_add_connection, ndpi_set_detected_protocol, exclude_someip, hU] at h2
  exact absurd h2 (by decide)

/-- On a payload whose length fits 16 bits the machine's length-field test is
the one over the unbounded integers. -/
theorem passes_iff_accepts (le : Bool) (packet : ndpi_packet_struct)
    (hL : packet.payload.length ≤ 65535) :
    (16 ≤ packet.payload.length ∧ passes le packet) ↔ someip_accepts le packet := by
  unfold passes someip_accepts structural_gates
  have hv : be32_at packet.payload 4 < 4294967296 := by
    simp only [be32_at, payload_byte]; omega
  constructor
  · rintro ⟨h16, h2, h3, h4, h5, h6⟩
    exact ⟨⟨h16, by omega, h3, h4, h5⟩, h6⟩
  · rintro ⟨⟨h16, h2, h3, h4, h5⟩, h6⟩
    exact ⟨h16, by omega, h3, h4, h5, h6⟩

/-- The function with raw reads, on every unclassified flow. -/
theorem search_raw_accepts (beyond : Nat → Nat) (le : Bool) (flow : ndpi_flow_struct)
    (hU : unclassified flow) (hL : flow.packet.payload.length ≤ 65535) :
    ndpi_search_someip (fetch_raw beyond) le flow
      = some (if someip_accepts le flow.packet then ndpi_int_someip_add_connection flow
          else exclude_someip flow) := by
  by_cases h16 : 16 ≤ flow.packet.payload.length
  · by_cases ha : someip_accepts le flow.packet
    · rw [if_pos ha]
      exact (search_raw_norm beyond le flow hU h16).1 ((passes_iff_accepts le _ hL).2 ha).2
    · rw [if_neg ha]
      exact (search_raw_norm beyond le flow hU h16).2
        (fun hp => ha ((passes_iff_accepts le _ hL).1 ⟨h16, hp⟩))
  · have ha : ¬ someip_accepts le flow.packet := fun ha => h16 ha.1.1
    rw [if_neg ha]
    exact search_raw_short beyond le flow hU (by omega)

/-- The algorithm of the specification confirms exactly under `someip_accepts`. -/
theorem classify_spec_confirmed_iff (le : Bool) (packet : ndpi_packet_struct) :
    classify_spec packet.payload packet.l4_protocol (dest_port le packet)
      = Classification.Confirmed ↔ someip_accepts le packet := by
  have hd6 : packet.l4_protocol = 6 → dest_port le packet = tcp_dest_port le packet := by
    intro h; simp [dest_port, h, IPPROTO_UDP]
  have hd17 : packet.l4_protocol = 17 → dest_port le packet = udp_dest_port le packet := by
    intro h; simp [dest_port, h, IPPROTO_UDP]
  dsimp only [classify_spec, parse_header]
  simp only [someip_accepts, structural_gates, handshake_id,
    handshake_fields, default_port, legal_message_type, List.mem_cons, List.mem_singleton,
    List.not_mem_nil, or_false, ge_iff_le]
  generalize be32_at packet.payload 0 = m
  generalize be32_at packet.payload 4 = v
  generalize be32_at packet.payload 8 = r
  generalize payload_byte packet.payload 12 = p12
  generalize payload_byte packet.payload 13 = p13
  generalize payload_byte packet.payload 14 = p14
  generalize payload_byte packet.payload 15 = p15
  generalize packet.payload.length = L
  by_cases c1 : 16 ≤ L
  swap
  · simp only [c1, not_false_eq_true, if_true, false_and, reduceCtorEq]
  simp only [c1, not_true_eq_false, if_false, true_and]
  by_cases c2 : L = v + 8 <;>
  by_cases c3 : p12 = 1 <;>
  by_cases c4 : (p14 = 0 ∨ p14 = 1 ∨ p14 = 2 ∨ p14 = 64 ∨ p14 = 65 ∨ p14 = 66 ∨ p14 = 128 ∨
      p14 = 129 ∨ p14 = 192 ∨ p14 = 193) <;>
  by_cases c5 : p15 < 64 <;>
  simp only [c2, c3, c4, c5, not_true_eq_false, not_false_eq_true, if_true, if_false,
    true_and, false_and, and_true, and_false, reduceCtorEq]
  by_cases c6 : m = 4294901760 <;>
  by_cases c8 : m = 4294934528 <;>
  by_cases c7 : (v = 8 ∧ r = 3735928559 ∧ p13 = 1 ∧ p14 = 1 ∧ p15 = 0) <;>
  by_cases k6 : packet.l4_protocol = 6 <;>
  by_cases k17 : packet.l4_protocol = 17 <;>
  simp [c6, c7, c8, k6, k17, hd6, hd17]
  all_goals omega

/-- The outcome of the algorithm of the specification. -/
theorem classify_spec_eq (le : Bool) (packet : ndpi_packet_struct) :
    classify_spec packet.payload packet.l4_protocol (dest_port le packet)
      = if someip_accepts le packet then Classification.Confirmed
        else Classification.Excluded := by
  have h := classify_spec_confirmed_iff le packet
  by_cases ha : someip_accepts le packet
  · rw [if_pos ha]; exact h.2 ha
  · rw [if_neg ha]
    cases hc : classify_spec packet.payload packet.l4_protocol (dest_port le packet) with
    | Confirmed => exact absurd (h.1 hc) ha
    | Excluded => rfl

/-! ## Checked reads -/

/-- A checked read inside the payload yields the byte there. -/
theorem fetch_checked_inside (payload : List Nat) (i : Nat) (h : i < payload.length) :
    fetch_checked payload i = some (payload.getD i 0 % 256) := by
  simp [fetch_checked, List.getD_eq_getElem _ _ h, List.getElem?_eq_getElem h]

/-- A checked read at or behind the payload length is refused. -/
theorem fetch_checked_outside (payload : List Nat) (i : Nat) (h : payload.length ≤ i) :
    fetch_checked payload i = none := by
  simp [fetch_checked, List.getElem?_eq_none h]

/-- Inside the payload checked and raw reads agree. -/
theorem fetch_checked_eq_raw (beyond : Nat → Nat) (payload : List Nat) (i : Nat)
    (h : i < payload.length) : fetch_checked payload i = fetch_raw beyond payload i := by
  rw [fetch_checked_inside payload i h]
  simp only [fetch_raw, getD_inside payload i (beyond i) h]

/-- A 32-bit read that lies inside the payload is the same checked and raw. -/
theorem read_u32_checked_eq_raw (beyond : Nat → Nat) (le : Bool) (payload : List Nat)
    (off : Nat) (h : off + 3 < payload.length) :
    read_u32 fetch_checked le payload off = read_u32 (fetch_raw beyond) le payload off := by
  simp only [read_u32, fetch_checked_eq_raw beyond payload off (by omega),
    fetch_checked_eq_raw beyond payload (off + 1) (by omega),
    fetch_checked_eq_raw beyond payload (off + 2) (by omega),
    fetch_checked_eq_raw beyond payload (off + 3) (by omega)]

/-- A 32-bit read that reaches behind the payload is refused. -/
theorem read_u32_checked_outside (le : Bool) (payload : List Nat) (off : Nat)
    (h : payload.length ≤ off + 3) : read_u32 fetch_checked le payload off = none := by
  unfold read_u32
  rw [fetch_checked_outside payload (off + 3) h]
  cases fetch_checked payload off <;> cases fetch_checked payload (off + 1) <;>
    cases fetch_checked payload (off + 2) <;> rfl

/-- From 12 payload bytes on, no read of the function leaves the payload. -/
theorem search_checked_eq_raw (beyond : Nat → Nat) (le : Bool) (flow : ndpi_flow_struct)
    (hL : 12 ≤ flow.packet.payload.length) :
    ndpi_search_someip fetch_checked le flow = ndpi_search_someip (fetch_raw beyond) le flow := by
  unfold ndpi_search_someip
  simp only [read_u32_checked_eq_raw beyond le flow.packet.payload 0 (by omega),
    read_u32_checked_eq_raw beyond le flow.packet.payload 8 (by omega)]
  by_cases h16 : flow.packet.payload.length < 16
  · simp only [payload_packet_len, h16, if_true]
  · simp only [read_u32_checked_eq_raw beyond le flow.packet.payload 4 (by omega),
      fetch_checked_eq_raw beyond flow.packet.payload 12 (by omega),
      fetch_checked_eq_raw beyond flow.packet.payload 13 (by omega),
      fetch_checked_eq_raw beyond flow.packet.payload 14 (by omega),
      fetch_checked_eq_raw beyond flow.packet.payload 15 (by omega)]

/-- Below 12 payload bytes the read of the request id leaves the payload. -/
theorem search_checked_short (le : Bool) (flow : ndpi_flow_struct) (hU : unclassified flow)
    (hL : flow.packet.payload.length < 12) :
    ndpi_search_someip fetch_checked le flow = none := by
  unfold unclassified at hU
  unfold ndpi_search_someip
  simp only [hU, ne_eq, not_true_eq_false, if_false,
    read_u32_checked_outside le flow.packet.payload 8 (by omega), Option.none_bind]
  cases read_u32 fetch_checked le flow.packet.payload 0 <;> rfl

/-- The exclusion sets the SOME/IP bit. -/
theorem exclude_someip_bit (flow : ndpi_flow_struct) :
    (exclude_someip flow).excluded_protocol_bitmask.testBit NDPI_PROTOCOL_SOMEIP = true := by
  simp [exclude_someip, NDPI_ADD_PROTOCOL_TO_BITMASK, Nat.testBit_or, Nat.testBit_shiftLeft]

/-- The exclusion leaves the flow unclassified. -/
theorem exclude_someip_unclassified (flow : ndpi_flow_struct) (hU : unclassified flow) :
    unclassified (exclude_someip flow) := hU

/-- The two outcomes of the function with raw reads, as equivalences. -/
theorem search_raw_iff (beyond : Nat → Nat) (le : Bool) (flow : ndpi_flow_struct)
    (hU : unclassified flow) (hL : flow.packet.payload.length ≤ 65535) :
    (ndpi_search_someip (fetch_raw beyond) le flow = some (ndpi_int_someip_add_connection flow)
        ↔ someip_accepts le flow.packet) ∧
    (ndpi_search_someip (fetch_raw beyond) le flow = some (exclude_someip flow)
        ↔ ¬ someip_accepts le flow.packet) := by
  rw [search_raw_accepts beyond le flow hU hL]
  have hne := confirm_ne_exclude flow hU
  by_cases ha : someip_accepts le flow.packet
  · rw [if_pos ha]
    exact ⟨⟨fun _ => ha, fun _ => rfl⟩,
      ⟨fun h => absurd (Option.some.inj h) hne, fun h => absurd ha h⟩⟩
  · rw [if_neg ha]
    exact ⟨⟨fun h => absurd (Option.some.inj h).symm hne, fun h => absurd h ha⟩,
      ⟨fun _ => ha, fun _ => rfl⟩⟩

/-! ## The claims -/

/-- C1: on an unclassified flow whose payload length fits 16 bits, and whatever
bytes lie behind the payload, `ndpi_search_someip` confirms SOME/IP if and only
if the five structural gates hold and either the message id is a handshake id
with the five handshake fields, or the message id is no handshake id and the
packet goes to a default port of its protocol; in every other case it excludes
SOME/IP; and its outcome is the one of the algorithm of section 4.1 of the
specification. -/
theorem C1_search_refines_spec (beyond : Nat → Nat) (le : Bool) (flow : ndpi_flow_struct)
    (hU : unclassified flow) (hL : flow.packet.payload.length ≤ 65535) :
    (ndpi_search_someip (fetch_raw beyond) le flow = some (ndpi_int_someip_add_connection flow)
        ↔ someip_accepts le flow.packet) ∧
    (ndpi_search_someip (fetch_raw beyond) le flow = some (exclude_someip flow)
        ↔ ¬ someip_accepts le flow.packet) ∧
    ndpi_search_someip (fetch_raw beyond) le flow
      = some (apply_classification flow
          (classify_spec flow.packet.payload flow.packet.l4_protocol
            (dest_port le flow.packet))) := by
  refine ⟨(search_raw_iff beyond le flow hU hL).1, (search_raw_iff beyond le flow hU hL).2, ?_⟩
  rw [search_raw_accepts beyond le flow hU hL, classify_spec_eq]
  by_cases ha : someip_accepts le flow.packet
  · rw [if_pos ha, if_pos ha]; rfl
  · rw [if_neg ha, if_neg ha]; rfl

/-- C1 at the Magic Cookie sent over UDP on a little-endian host: the function
confirms, as the algorithm of the specification does. -/
theorem C1_search_refines_spec_witness :
    unclassified (first_packet_flow magic_cookie 17 0) ∧
    (first_packet_flow magic_cookie 17 0).packet.payload.length ≤ 65535 ∧
    ndpi_search_someip (fetch_raw fun _ => 0) true (first_packet_flow magic_cookie 17 0)
      = some (apply_classification (first_packet_flow magic_cookie 17 0)
          (classify_spec (first_packet_flow magic_cookie 17 0).packet.payload
            (first_packet_flow magic_cookie 17 0).packet.l4_protocol
            (dest_port true (first_packet_flow magic_cookie 17 0).packet))) :=
  ⟨by decide, by decide,
    (C1_search_refines_spec (fun _ => 0) true (first_packet_flow magic_cookie 17 0)
      (by decide) (by decide)).2.2⟩

/-- C2: every payload shorter than 16 bytes, the empty one included, is excluded
on an unclassified flow, for every protocol and port and whatever bytes lie
behind the payload: the SOME/IP bit is set in the excluded bitmask and the flow
stays unclassified. -/
theorem C2_short_payload_excluded (beyond : Nat → Nat) (le : Bool) (flow : ndpi_flow_struct)
    (hU : unclassified flow) (hL : flow.packet.payload.length < 16) :
    ndpi_search_someip (fetch_raw beyond) le flow = some (exclude_someip flow) ∧
    (exclude_someip flow).excluded_protocol_bitmask.testBit NDPI_PROTOCOL_SOMEIP = true ∧
    unclassified (exclude_someip flow) :=
  ⟨search_raw_short beyond le flow hU hL, exclude_someip_bit flow,
    exclude_someip_unclassified flow hU⟩

/-- C2 at the empty payload. -/
theorem C2_short_payload_excluded_witness :
    ndpi_search_someip (fetch_raw fun _ => 0xFF) false (first_packet_flow [] 6 0)
      = some (exclude_someip (first_packet_flow [] 6 0)) :=
  (C2_short_payload_excluded (fun _ => 0xFF) false (first_packet_flow [] 6 0)
    (by decide) (by decide)).1

/-- C3, at a payload of one byte: the reads of the message id and of the request
id come before the length test, so with reads confined to the payload the
function is refused a read on either host byte order, where the claim has it
end in an exclusion; with the reads as the machine does them the flow is
excluded whatever lies behind the payload. -/
theorem C3_short_payload_read_outside :
    (∀ le : Bool, ndpi_search_someip fetch_checked le (first_packet_flow [0x00] 17 0) = none) ∧
    (∀ (beyond : Nat → Nat) (le : Bool),
      ndpi_search_someip (fetch_raw beyond) le (first_packet_flow [0x00] 17 0)
        = some (exclude_someip (first_packet_flow [0x00] 17 0))) :=
  ⟨fun le => search_checked_short le _ (by decide) (by decide),
    fun beyond le => search_raw_short beyond le _ (by decide) (by decide)⟩

/-- The function with raw reads on a payload of 16 bytes or more confirms
exactly when `passes` holds. -/
theorem search_raw_confirm_iff (beyond : Nat → Nat) (le : Bool) (flow : ndpi_flow_struct)
    (hU : unclassified flow) :
    ndpi_search_someip (fetch_raw beyond) le flow = some (ndpi_int_someip_add_connection flow)
      ↔ 16 ≤ flow.packet.payload.length ∧ passes le flow.packet := by
  have hne := confirm_ne_exclude flow hU
  by_cases h16 : 16 ≤ flow.packet.payload.length
  · by_cases hp : passes le flow.packet
    · exact ⟨fun _ => ⟨h16, hp⟩, fun _ => (search_raw_norm beyond le flow hU h16).1 hp⟩
    · rw [(search_raw_norm beyond le flow hU h16).2 hp]
      exact ⟨fun h => absurd (Option.some.inj h).symm hne, fun h => absurd h.2 hp⟩
  · rw [search_raw_short beyond le flow hU (by omega)]
    exact ⟨fun h => absurd (Option.some.inj h).symm hne, fun h => absurd h.1 h16⟩

/-- Whatever does not satisfy `passes` is excluded. -/
theorem search_raw_exclude (beyond : Nat → Nat) (le : Bool) (flow : ndpi_flow_struct)
    (hU : unclassified flow) (hp : ¬ passes le flow.packet) :
    ndpi_search_someip (fetch_raw beyond) le flow = some (exclude_someip flow) := by
  by_cases h16 : 16 ≤ flow.packet.payload.length
  · exact (search_raw_norm beyond le flow hU h16).2 hp
  · exact search_raw_short beyond le flow hU (by omega)

/-- A 32-bit field is below `2^32`. -/
theorem be32_at_lt (payload : List Nat) (off : Nat) : be32_at payload off < 4294967296 := by
  simp only [be32_at, payload_byte]; omega

/-- C4: a payload of 16 bytes or more whose length differs from its length
field plus 8, taken over the unbounded integers, is excluded for every message
id, protocol and port (no bound on the payload length is needed for that); and
a confirmed payload has a length field equal to its length minus 8, hence at
least 8, so no length field near `2^32` passes by wraparound of the 32-bit
sum. -/
theorem C4_length_field_consistency (beyond : Nat → Nat) (le : Bool) (flow : ndpi_flow_struct)
    (hU : unclassified flow) :
    (16 ≤ flow.packet.payload.length →
      flow.packet.payload.length ≠ be32_at flow.packet.payload 4 + 8 →
      ndpi_search_someip (fetch_raw beyond) le flow = some (exclude_someip flow)) ∧
    (ndpi_search_someip (fetch_raw beyond) le flow = some (ndpi_int_someip_add_connection flow) →
      be32_at flow.packet.payload 4 = flow.packet.payload.length - 8 ∧
      8 ≤ be32_at flow.packet.payload 4) := by
  have hv := be32_at_lt flow.packet.payload 4
  constructor
  · intro h16 hne
    refine search_raw_exclude beyond le flow hU (fun hp => ?_)
    have h2 := hp.1
    omega
  · intro hc
    obtain ⟨h16, hp⟩ := (search_raw_confirm_iff beyond le flow hU).1 hc
    have h2 := hp.1
    omega

/-- C4 at the payload of 20 bytes whose length field encodes 8: excluded. -/
theorem C4_length_field_consistency_witness :
    ndpi_search_someip (fetch_raw fun _ => 0) true
        (first_packet_flow length_mismatch 17 (ntohs true 30501))
      = some (exclude_someip (first_packet_flow length_mismatch 17 (ntohs true 30501))) :=
  (C4_length_field_consistency (fun _ => 0) true
    (first_packet_flow length_mismatch 17 (ntohs true 30501)) (by decide)).1
    (by decide) (by decide)

/-- C5: the Magic Cookie `FF FF 00 00 00 00 00 08 DE AD BE EF 01 01 01 00` is
confirmed on an unclassified flow for every protocol value and every
destination port, on both host byte orders, and none of its reads leaves the
payload. -/
theorem C5_magic_cookie_confirmed (beyond : Nat → Nat) (le : Bool) (flow : ndpi_flow_struct)
    (hU : unclassified flow) (hP : flow.packet.payload = magic_cookie) :
    ndpi_search_someip (fetch_raw beyond) le flow = some (ndpi_int_someip_add_connection flow) ∧
    ndpi_search_someip fetch_checked le flow = some (ndpi_int_someip_add_connection flow) := by
  have h16 : 16 ≤ flow.packet.payload.length := by rw [hP]; decide
  have hp : passes le flow.packet := by
    unfold passes
    rw [hP]
    exact ⟨by decide, by decide, by decide, by decide, Or.inl ⟨by decide, by decide⟩⟩
  have hr := (search_raw_norm beyond le flow hU h16).1 hp
  exact ⟨hr, by rw [search_checked_eq_raw beyond le flow (by omega)]; exact hr⟩

/-- C5 at protocol number 47 (neither UDP nor TCP) and port field 0. -/
theorem C5_magic_cookie_confirmed_witness :
    ndpi_search_someip fetch_checked false (first_packet_flow magic_cookie 47 0)
      = some (ndpi_int_someip_add_connection (first_packet_flow magic_cookie 47 0)) :=
  (C5_magic_cookie_confirmed (fun _ => 0) false (first_packet_flow magic_cookie 47 0)
    (by decide) rfl).2

/-- C6: the Magic Cookie ACK `FF FF 80 00 00 00 00 08 DE AD BE EF 01 01 01 00`
is confirmed on an unclassified flow for every protocol value and every
destination port, on both host byte orders, and none of its reads leaves the
payload. -/
theorem C6_magic_cookie_ack_confirmed (beyond : Nat → Nat) (le : Bool)
    (flow : ndpi_flow_struct) (hU : unclassified flow)
    (hP : flow.packet.payload = magic_cookie_ack) :
    ndpi_search_someip (fetch_raw beyond) le flow = some (ndpi_int_someip_add_connection flow) ∧
    ndpi_search_someip fetch_checked le flow = some (ndpi_int_someip_add_connection flow) := by
  have h16 : 16 ≤ flow.packet.payload.length := by rw [hP]; decide
  have hp : passes le flow.packet := by
    unfold passes
    rw [hP]
    exact ⟨by decide, by decide, by decide, by decide, Or.inl ⟨by decide, by decide⟩⟩
  have hr := (search_raw_norm beyond le flow hU h16).1 hp
  exact ⟨hr, by rw [search_checked_eq_raw beyond le flow (by omega)]; exact hr⟩

/-- C6 over TCP to port 80 on a little-endian host. -/
theorem C6_magic_cookie_ack_confirmed_witness :
    ndpi_search_someip fetch_checked true (first_packet_flow magic_cookie_ack 6 (ntohs true 80))
      = some (ndpi_int_someip_add_connection
          (first_packet_flow magic_cookie_ack 6 (ntohs true 80))) :=
  (C6_magic_cookie_ack_confirmed (fun _ => 0) true
    (first_packet_flow magic_cookie_ack 6 (ntohs true 80)) (by decide) rfl).2

/-- C7: a payload whose message id is a handshake id and in which one of the
five handshake fields differs (length 8, request id `0xDEADBEEF`, interface
version 1, message type `0x01`, return code `0x00`) is excluded for every
protocol and every destination port, the default ports included: the port test
is not reached. -/
theorem C7_handshake_ids_exclusive (beyond : Nat → Nat) (le : Bool) (flow : ndpi_flow_struct)
    (hU : unclassified flow) (hid : handshake_id (be32_at flow.packet.payload 0))
    (hf : ¬ handshake_fields flow.packet.payload) :
    ndpi_search_someip (fetch_raw beyond) le flow = some (exclude_someip flow) := by
  refine search_raw_exclude beyond le flow hU (fun hp => ?_)
  rcases hp.2.2.2.2 with h | h
  · exact hf h.2
  · exact h.1 hid

/-- C7 at the Magic Cookie with return code `0x01`, over UDP to port 30501. -/
theorem C7_handshake_ids_exclusive_witness :
    default_port true (first_packet_flow magic_cookie_near_miss 17 (ntohs true 30501)).packet ∧
    ndpi_search_someip (fetch_raw fun _ => 0) true
        (first_packet_flow magic_cookie_near_miss 17 (ntohs true 30501))
      = some (exclude_someip (first_packet_flow magic_cookie_near_miss 17 (ntohs true 30501))) :=
  ⟨by decide,
    C7_handshake_ids_exclusive (fun _ => 0) true
      (first_packet_flow magic_cookie_near_miss 17 (ntohs true 30501))
      (by decide) (by decide) (by decide)⟩

/-- Behind the structural gates and for a message id that is no handshake id,
the port test decides. -/
theorem search_raw_port (beyond : Nat → Nat) (le : Bool) (flow : ndpi_flow_struct)
    (hU : unclassified flow) (hL : flow.packet.payload.length ≤ 65535)
    (hg : structural_gates flow.packet.payload)
    (hid : ¬ handshake_id (be32_at flow.packet.payload 0)) :
    (ndpi_search_someip (fetch_raw beyond) le flow = some (ndpi_int_someip_add_connection flow)
        ↔ default_port le flow.packet) ∧
    (ndpi_search_someip (fetch_raw beyond) le flow = some (exclude_someip flow)
        ↔ ¬ default_port le flow.packet) := by
  have h := search_raw_iff beyond le flow hU hL
  have ha : someip_accepts le flow.packet ↔ default_port le flow.packet :=
    ⟨fun a => a.2.elim (fun x => absurd x.1 hid) (fun x => x.2), fun d => ⟨hg, Or.inr ⟨hid, d⟩⟩⟩
  rw [← ha]
  exact h

/-- C8: for a payload that passes the five structural gates and whose message
id is no handshake id, the function confirms if and only if the protocol is UDP
and the destination port is 30491, 30501 or 30490, or the protocol is TCP and
the destination port is 30491 or 30501, and excludes otherwise; in particular
TCP to port 30490 and every protocol other than UDP and TCP are excluded. -/
theorem C8_port_fallback (beyond : Nat → Nat) (le : Bool) (flow : ndpi_flow_struct)
    (hU : unclassified flow) (hL : flow.packet.payload.length ≤ 65535)
    (hg : structural_gates flow.packet.payload)
    (hid : ¬ handshake_id (be32_at flow.packet.payload 0)) :
    (ndpi_search_someip (fetch_raw beyond) le flow = some (ndpi_int_someip_add_connection flow)
        ↔ (flow.packet.l4_protocol = 17 ∧
            (udp_dest_port le flow.packet = 30491 ∨ udp_dest_port le flow.packet = 30501 ∨
              udp_dest_port le flow.packet = 30490)) ∨
          (flow.packet.l4_protocol = 6 ∧
            (tcp_dest_port le flow.packet = 30491 ∨ tcp_dest_port le flow.packet = 30501))) ∧
    (ndpi_search_someip (fetch_raw beyond) le flow = some (exclude_someip flow)
        ↔ ¬ ((flow.packet.l4_protocol = 17 ∧
            (udp_dest_port le flow.packet = 30491 ∨ udp_dest_port le flow.packet = 30501 ∨
              udp_dest_port le flow.packet = 30490)) ∨
          (flow.packet.l4_protocol = 6 ∧
            (tcp_dest_port le flow.packet = 30491 ∨ tcp_dest_port le flow.packet = 30501)))) ∧
    (flow.packet.l4_protocol = 6 → tcp_dest_port le flow.packet = 30490 →
      ndpi_search_someip (fetch_raw beyond) le flow = some (exclude_someip flow)) ∧
    (flow.packet.l4_protocol ≠ 17 → flow.packet.l4_protocol ≠ 6 →
      ndpi_search_someip (fetch_raw beyond) le flow = some (exclude_someip flow)) := by
  have h := search_raw_port beyond le flow hU hL hg hid
  unfold default_port at h
  refine ⟨h.1, h.2, fun h6 hp => h.2.2 ?_, fun h17 h6 => h.2.2 ?_⟩
  · omega
  · omega

/-- C8 at the general request `00 01 00 02 00 00 00 08 00 00 00 01 01 01 00 00`:
confirmed over UDP to port 30501, excluded over UDP to port 12345. -/
theorem C8_port_fallback_witness :
    ndpi_search_someip (fetch_raw fun _ => 0) true
        (first_packet_flow general_request 17 (ntohs true 30501))
      = some (ndpi_int_someip_add_connection
          (first_packet_flow general_request 17 (ntohs true 30501))) ∧
    ndpi_search_someip (fetch_raw fun _ => 0) true
        (first_packet_flow general_request 17 (ntohs true 12345))
      = some (exclude_someip (first_packet_flow general_request 17 (ntohs true 12345))) :=
  ⟨(C8_port_fallback (fun _ => 0) true (first_packet_flow general_request 17 (ntohs true 30501))
      (by decide) (by decide) (by decide) (by decide)).1.2 (by decide),
   (C8_port_fallback (fun _ => 0) true (first_packet_flow general_request 17 (ntohs true 12345))
      (by decide) (by decide) (by decide) (by decide)).2.1.2 (by decide)⟩

/-- C9: a payload whose byte at offset 15 is `0x40` or more is excluded,
whatever its length, message id (handshake ids included), length field,
version bytes and message type, and whatever the protocol and port. -/
theorem C9_illegal_return_code (beyond : Nat → Nat) (le : Bool) (flow : ndpi_flow_struct)
    (hU : unclassified flow) (hrc : 0x40 ≤ payload_byte flow.packet.payload 15) :
    ndpi_search_someip (fetch_raw beyond) le flow = some (exclude_someip flow) := by
  refine search_raw_exclude beyond le flow hU (fun hp => ?_)
  have h := hp.2.2.2.1
  omega

/-- C9 at the Magic Cookie with return code `0x40`, over UDP to port 30501. -/
theorem C9_illegal_return_code_witness :
    ndpi_search_someip (fetch_raw fun _ => 0) true
        (first_packet_flow illegal_return_code 17 (ntohs true 30501))
      = some (exclude_someip (first_packet_flow illegal_return_code 17 (ntohs true 30501))) :=
  C9_illegal_return_code (fun _ => 0) true
    (first_packet_flow illegal_return_code 17 (ntohs true 30501)) (by decide) (by decide)

/-- C10: for a payload of 16 bytes or more with a consistent length field,
protocol version 1, a return code below `0x40` and a message id that is no
handshake id, sent over UDP to destination port 30501, the function confirms if
and only if the byte at offset 14 is one of `0x00, 0x01, 0x02, 0x40, 0x41,
0x42, 0x80, 0x81, 0xC0, 0xC1`, and excludes for every other byte value; these
are ten of the 256 byte values. -/
theorem C10_message_type_set (beyond : Nat → Nat) (le : Bool) (flow : ndpi_flow_struct)
    (hU : unclassified flow) (h16 : 16 ≤ flow.packet.payload.length)
    (hL : flow.packet.payload.length ≤ 65535)
    (hlen : flow.packet.payload.length = be32_at flow.packet.payload 4 + 8)
    (hver : payload_byte flow.packet.payload 12 = 1)
    (hrc : payload_byte flow.packet.payload 15 < 0x40)
    (hid : ¬ handshake_id (be32_at flow.packet.payload 0))
    (hudp : flow.packet.l4_protocol = 17) (hport : udp_dest_port le flow.packet = 30501) :
    (ndpi_search_someip (fetch_raw beyond) le flow = some (ndpi_int_someip_add_connection flow)
        ↔ payload_byte flow.packet.payload 14 ∈
            [0x00, 0x01, 0x02, 0x40, 0x41, 0x42, 0x80, 0x81, 0xC0, 0xC1]) ∧
    (ndpi_search_someip (fetch_raw beyond) le flow = some (exclude_someip flow)
        ↔ payload_byte flow.packet.payload 14 ∉
            [0x00, 0x01, 0x02, 0x40, 0x41, 0x42, 0x80, 0x81, 0xC0, 0xC1]) ∧
    ((List.range 256).filter
        (fun t => decide (t ∈ [0x00, 0x01, 0x02, 0x40, 0x41, 0x42, 0x80, 0x81, 0xC0, 0xC1]))).length
      = 10 := by
  have h := search_raw_iff beyond le flow hU hL
  have hm : payload_byte flow.packet.payload 14 ∈
      [0x00, 0x01, 0x02, 0x40, 0x41, 0x42, 0x80, 0x81, 0xC0, 0xC1]
        ↔ legal_message_type (payload_byte flow.packet.payload 14) := by
    simp only [List.mem_cons, List.mem_singleton, List.not_mem_nil, or_false, legal_message_type]
  have ha : someip_accepts le flow.packet
      ↔ legal_message_type (payload_byte flow.packet.payload 14) :=
    ⟨fun a => a.1.2.2.2.1,
      fun t => ⟨⟨h16, hlen, hver, t, hrc⟩, Or.inr ⟨hid, Or.inl ⟨hudp, Or.inr (Or.inl hport)⟩⟩⟩⟩
  rw [hm, ← ha]
  exact ⟨h.1, h.2, by decide⟩

/-- C10 at the general request (message type `0x00`) over UDP to port 30501. -/
theorem C10_message_type_set_witness :
    ndpi_search_someip (fetch_raw fun _ => 0) true
        (first_packet_flow general_request 17 (ntohs true 30501))
      = some (ndpi_int_someip_add_connection
          (first_packet_flow general_request 17 (ntohs true 30501))) :=
  (C10_message_type_set (fun _ => 0) true (first_packet_flow general_request 17 (ntohs true 30501))
    (by decide) (by decide) (by decide) (by decide) (by decide) (by decide) (by decide)
    (by decide) (by decide)).1.2 (by decide)

/-! ## Frame and congruence lemmas -/

/-- Setting a list entry leaves the bytes at the other offsets. -/
theorem payload_byte_set_ne (l : List Nat) (i j x : Nat) (h : i ≠ j) :
    payload_byte (l.set i x) j = payload_byte l j := by
  simp only [payload_byte, List.getD_eq_getElem?_getD, List.getElem?_set_ne h]

/-- Bits other than the one added are left as they are. -/
theorem add_protocol_other_bit (bitmask proto i : Nat) (h : i ≠ proto) :
    (NDPI_ADD_PROTOCOL_TO_BITMASK bitmask proto).testBit i = bitmask.testBit i := by
  simp [NDPI_ADD_PROTOCOL_TO_BITMASK, Nat.testBit_or, Nat.one_shiftLeft, Nat.testBit_two_pow,
    Ne.symm h]

/-- Adding a protocol twice is adding it once. -/
theorem add_protocol_twice (bitmask proto : Nat) :
    NDPI_ADD_PROTOCOL_TO_BITMASK (NDPI_ADD_PROTOCOL_TO_BITMASK bitmask proto) proto
      = NDPI_ADD_PROTOCOL_TO_BITMASK bitmask proto := by
  simp [NDPI_ADD_PROTOCOL_TO_BITMASK, Nat.or_assoc]

/-- A classified flow is returned as it is, whatever the reads would yield. -/
theorem search_classified (fetch : Fetch) (le : Bool) (flow : ndpi_flow_struct)
    (hC : ¬ unclassified flow) : ndpi_search_someip fetch le flow = some flow := by
  unfold unclassified at hC
  unfold ndpi_search_someip
  simp only [ne_eq, hC, not_false_eq_true, if_true]

/-- The function with raw reads excludes exactly when it does not confirm. -/
theorem search_raw_exclude_iff (beyond : Nat → Nat) (le : Bool) (flow : ndpi_flow_struct)
    (hU : unclassified flow) :
    ndpi_search_someip (fetch_raw beyond) le flow = some (exclude_someip flow)
      ↔ ¬ (16 ≤ flow.packet.payload.length ∧ passes le flow.packet) := by
  have hne := confirm_ne_exclude flow hU
  by_cases hp : 16 ≤ flow.packet.payload.length ∧ passes le flow.packet
  · rw [(search_raw_confirm_iff beyond le flow hU).2 hp]
    exact ⟨fun h => absurd (Option.some.inj h) hne, fun h => absurd hp h⟩
  · refine ⟨fun _ => hp, fun _ => ?_⟩
    by_cases h16 : 16 ≤ flow.packet.payload.length
    · exact search_raw_exclude beyond le flow hU (fun h => hp ⟨h16, h⟩)
    · exact search_raw_short beyond le flow hU (by omega)

/-- The condition of the function depends on the packet through the payload
length, the length field, the bytes at offsets 12, 14 and 15, whether the
message id is a handshake id, for a handshake id the request id and the byte at
offset 13, and whether the packet goes to a default port. -/
theorem passes_congr (le : Bool) (p q : ndpi_packet_struct)
    (hlen : p.payload.length = q.payload.length)
    (h4 : be32_at p.payload 4 = be32_at q.payload 4)
    (h12 : payload_byte p.payload 12 = payload_byte q.payload 12)
    (h14 : payload_byte p.payload 14 = payload_byte q.payload 14)
    (h15 : payload_byte p.payload 15 = payload_byte q.payload 15)
    (hid : handshake_id (be32_at p.payload 0) ↔ handshake_id (be32_at q.payload 0))
    (hhs : handshake_id (be32_at p.payload 0) →
      be32_at p.payload 8 = be32_at q.payload 8 ∧
        payload_byte p.payload 13 = payload_byte q.payload 13)
    (hport : default_port le p ↔ default_port le q) :
    passes le p ↔ passes le q := by
  unfold passes handshake_fields
  rw [hlen, h4, h12, h14, h15]
  constructor
  · rintro ⟨a, b, c, d, e⟩
    refine ⟨a, b, c, d, ?_⟩
    rcases e with ⟨e1, e2, e3, e4, e5⟩ | ⟨e1, e2⟩
    · exact Or.inl ⟨hid.1 e1, e2, (hhs e1).1 ▸ e3, (hhs e1).2 ▸ e4, e5⟩
    · exact Or.inr ⟨fun x => e1 (hid.2 x), hport.1 e2⟩
  · rintro ⟨a, b, c, d, e⟩
    refine ⟨a, b, c, d, ?_⟩
    rcases e with ⟨e1, e2, e3, e4, e5⟩ | ⟨e1, e2⟩
    · exact Or.inl ⟨hid.2 e1, e2, (hhs (hid.2 e1)).1.symm ▸ e3, (hhs (hid.2 e1)).2.symm ▸ e4, e5⟩
    · exact Or.inr ⟨fun x => e1 (hid.1 x), hport.2 e2⟩

/-- Two unclassified flows whose packets agree on length and on `passes` are
classified alike. -/
theorem search_raw_congr (b1 b2 : Nat → Nat) (le : Bool) (f1 f2 : ndpi_flow_struct)
    (hU1 : unclassified f1) (hU2 : unclassified f2)
    (hlen : f1.packet.payload.length = f2.packet.payload.length)
    (hp : passes le f1.packet ↔ passes le f2.packet) :
    (ndpi_search_someip (fetch_raw b1) le f1 = some (ndpi_int_someip_add_connection f1)
      ↔ ndpi_search_someip (fetch_raw b2) le f2 = some (ndpi_int_someip_add_connection f2)) ∧
    (ndpi_search_someip (fetch_raw b1) le f1 = some (exclude_someip f1)
      ↔ ndpi_search_someip (fetch_raw b2) le f2 = some (exclude_someip f2)) := by
  rw [search_raw_confirm_iff b1 le f1 hU1, search_raw_confirm_iff b2 le f2 hU2,
    search_raw_exclude_iff b1 le f1 hU1, search_raw_exclude_iff b2 le f2 hU2, hlen, hp]
  exact ⟨Iff.rfl, Iff.rfl⟩

/-- Replacing the message id leaves the length and the bytes from offset 4 on. -/
theorem set_message_id_frame (payload : List Nat) (b0 b1 b2 b3 : Nat) :
    (set_message_id payload b0 b1 b2 b3).length = payload.length ∧
    ∀ j, 4 ≤ j → payload_byte (set_message_id payload b0 b1 b2 b3) j = payload_byte payload j := by
  refine ⟨by simp [set_message_id], fun j hj => ?_⟩
  unfold set_message_id
  rw [payload_byte_set_ne _ 3 j _ (by omega), payload_byte_set_ne _ 2 j _ (by omega),
    payload_byte_set_ne _ 1 j _ (by omega), payload_byte_set_ne _ 0 j _ (by omega)]

/-- The message id of a payload of four bytes or more after its replacement. -/
theorem set_message_id_id (payload : List Nat) (b0 b1 b2 b3 : Nat) (h : 4 ≤ payload.length) :
    be32_at (set_message_id payload b0 b1 b2 b3) 0
      = 16777216 * (b0 % 256) + 65536 * (b1 % 256) + 256 * (b2 % 256) + b3 % 256 := by
  simp only [be32_at, payload_byte, set_message_id, List.getD_eq_getElem?_getD]
  simp only [List.getElem?_set, List.length_set, zero_add, Nat.reduceAdd]
  simp [show 0 < payload.length by omega, show 1 < payload.length by omega,
    show 2 < payload.length by omega, show 3 < payload.length by omega]

/-- Replacing the request id and the interface version leaves the length and
the bytes at the other offsets. -/
theorem set_request_id_interface_version_frame (payload : List Nat) (r0 r1 r2 r3 iv : Nat) :
    (set_request_id_interface_version payload r0 r1 r2 r3 iv).length = payload.length ∧
    ∀ j, j ≠ 8 → j ≠ 9 → j ≠ 10 → j ≠ 11 → j ≠ 13 →
      payload_byte (set_request_id_interface_version payload r0 r1 r2 r3 iv) j
        = payload_byte payload j := by
  refine ⟨by simp [set_request_id_interface_version], fun j h8 h9 h10 h11 h13 => ?_⟩
  unfold set_request_id_interface_version
  rw [payload_byte_set_ne _ 13 j _ (by omega), payload_byte_set_ne _ 11 j _ (by omega),
    payload_byte_set_ne _ 10 j _ (by omega), payload_byte_set_ne _ 9 j _ (by omega),
    payload_byte_set_ne _ 8 j _ (by omega)]

/-- Whether a packet goes to a default port depends on its protocol and its
port fields only. -/
theorem default_port_with_payload (le : Bool) (flow : ndpi_flow_struct) (payload : List Nat) :
    default_port le (with_payload flow payload).packet ↔ default_port le flow.packet :=
  Iff.rfl

/-- A payload replacement does not classify the flow. -/
theorem with_payload_unclassified (flow : ndpi_flow_struct) (payload : List Nat)
    (hU : unclassified flow) : unclassified (with_payload flow payload) := hU

/-- C11: a payload with the Service Discovery message id `0xFFFF8100` that
passes the five structural gates is classified by the port fallback alone:
confirmed if and only if it goes over UDP to port 30491, 30501 or 30490 or over
TCP to port 30491 or 30501, excluded otherwise, so that to any other port it is
excluded; and it is classified as the same payload with any message id that is
no handshake id in place of its own. -/
theorem C11_service_discovery_not_special (beyond : Nat → Nat) (le : Bool)
    (flow : ndpi_flow_struct) (hU : unclassified flow)
    (hL : flow.packet.payload.length ≤ 65535) (hg : structural_gates flow.packet.payload)
    (hsd : be32_at flow.packet.payload 0 = MSG_SD) :
    (ndpi_search_someip (fetch_raw beyond) le flow = some (ndpi_int_someip_add_connection flow)
        ↔ default_port le flow.packet) ∧
    (ndpi_search_someip (fetch_raw beyond) le flow = some (exclude_someip flow)
        ↔ ¬ default_port le flow.packet) ∧
    (∀ b0 b1 b2 b3 : Nat,
      ¬ handshake_id (16777216 * (b0 % 256) + 65536 * (b1 % 256) + 256 * (b2 % 256) + b3 % 256) →
      (ndpi_search_someip (fetch_raw beyond) le
            (with_payload flow (set_message_id flow.packet.payload b0 b1 b2 b3))
          = some (ndpi_int_someip_add_connection
              (with_payload flow (set_message_id flow.packet.payload b0 b1 b2 b3)))
        ↔ ndpi_search_someip (fetch_raw beyond) le flow
            = some (ndpi_int_someip_add_connection flow)) ∧
      (ndpi_search_someip (fetch_raw beyond) le
            (with_payload flow (set_message_id flow.packet.payload b0 b1 b2 b3))
          = some (exclude_someip
              (with_payload flow (set_message_id flow.packet.payload b0 b1 b2 b3)))
        ↔ ndpi_search_someip (fetch_raw beyond) le flow = some (exclude_someip flow))) := by
  have hid : ¬ handshake_id (be32_at flow.packet.payload 0) := by
    rw [hsd]; decide
  have hport := search_raw_port beyond le flow hU hL hg hid
  refine ⟨hport.1, hport.2, fun b0 b1 b2 b3 hb => ?_⟩
  have hfr := set_message_id_frame flow.packet.payload b0 b1 b2 b3
  have hid2 : ¬ handshake_id (be32_at (set_message_id flow.packet.payload b0 b1 b2 b3) 0) := by
    rw [set_message_id_id _ b0 b1 b2 b3 (by have := hg.1; omega)]; exact hb
  refine search_raw_congr beyond beyond le _ flow (with_payload_unclassified flow _ hU) hU
    hfr.1 (passes_congr le _ _ hfr.1 ?_ (hfr.2 12 (by omega)) (hfr.2 14 (by omega))
      (hfr.2 15 (by omega)) ⟨fun x => absurd x hid2, fun x => absurd x hid⟩
      (fun x => absurd x hid2) Iff.rfl)
  simp only [be32_at, with_payload, hfr.2 4 (by omega), hfr.2 (4 + 1) (by omega),
    hfr.2 (4 + 2) (by omega), hfr.2 (4 + 3) (by omega)]

/-- C11 at a Service Discovery notification sent over UDP to port 12345:
excluded. -/
theorem C11_service_discovery_not_special_witness :
    ndpi_search_someip (fetch_raw fun _ => 0) true
        (first_packet_flow service_discovery 17 (ntohs true 12345))
      = some (exclude_someip (first_packet_flow service_discovery 17 (ntohs true 12345))) :=
  (C11_service_discovery_not_special (fun _ => 0) true
    (first_packet_flow service_discovery 17 (ntohs true 12345))
    (by decide) (by decide) (by decide) (by decide)).2.1.2 (by decide)

/-- A confirmed payload passes the five structural gates. -/
theorem confirm_structural_gates (beyond : Nat → Nat) (le : Bool) (flow : ndpi_flow_struct)
    (hU : unclassified flow)
    (hc : ndpi_search_someip (fetch_raw beyond) le flow
      = some (ndpi_int_someip_add_connection flow)) :
    structural_gates flow.packet.payload := by
  obtain ⟨h16, h2, h3, h4, h5, _⟩ := (search_raw_confirm_iff beyond le flow hU).1 hc
  have hv := be32_at_lt flow.packet.payload 4
  exact ⟨h16, by omega, h3, h4, h5⟩

/-- C12: whenever the function confirms, the payload has 16 bytes or more, its
length is its length field plus 8, its byte 12 is 1, its byte 14 is a legal
message type and its byte 15 is below `0x40`; so a payload whose byte 12 is not
1 is excluded, were it otherwise the Magic Cookie or sent to a default port;
and the gates are not sufficient: the general request, which passes them with a
message id that is no handshake id, is excluded over UDP to port 12345. -/
theorem C12_gates_necessary_not_sufficient (beyond : Nat → Nat) (le : Bool)
    (flow : ndpi_flow_struct) (hU : unclassified flow) :
    (ndpi_search_someip (fetch_raw beyond) le flow = some (ndpi_int_someip_add_connection flow) →
      16 ≤ flow.packet.payload.length ∧
      flow.packet.payload.length = be32_at flow.packet.payload 4 + 8 ∧
      payload_byte flow.packet.payload 12 = 1 ∧
      payload_byte flow.packet.payload 14 ∈
        [0x00, 0x01, 0x02, 0x40, 0x41, 0x42, 0x80, 0x81, 0xC0, 0xC1] ∧
      payload_byte flow.packet.payload 15 < 0x40) ∧
    (payload_byte flow.packet.payload 12 ≠ 1 →
      ndpi_search_someip (fetch_raw beyond) le flow = some (exclude_someip flow)) ∧
    (structural_gates general_request ∧ ¬ handshake_id (be32_at general_request 0) ∧
      ndpi_search_someip (fetch_raw beyond) le (first_packet_flow general_request 17 (ntohs le 12345))
        = some (exclude_someip (first_packet_flow general_request 17 (ntohs le 12345)))) := by
  refine ⟨fun hc => ?_, fun hv => ?_, by decide, by decide, ?_⟩
  · obtain ⟨h1, h2, h3, h4, h5⟩ := confirm_structural_gates beyond le flow hU hc
    refine ⟨h1, h2, h3, ?_, h5⟩
    simpa only [List.mem_cons, List.mem_singleton, List.not_mem_nil, or_false,
      legal_message_type] using h4
  · exact search_raw_exclude beyond le flow hU (fun hp => hv hp.2.1)
  · refine search_raw_exclude beyond le _ rfl (fun hp => ?_)
    rcases hp.2.2.2.2 with h | h
    · exact absurd h.1 (by decide : ¬ handshake_id (be32_at general_request 0))
    · have hd := h.2
      cases le <;> revert hd <;> decide

/-- C12 at the Magic Cookie with protocol version 2, over UDP to port 30501:
excluded. -/
theorem C12_gates_necessary_not_sufficient_witness :
    ndpi_search_someip (fetch_raw fun _ => 0) true
        (first_packet_flow magic_cookie_version_2 17 (ntohs true 30501))
      = some (exclude_someip (first_packet_flow magic_cookie_version_2 17 (ntohs true 30501))) :=
  (C12_gates_necessary_not_sufficient (fun _ => 0) true
    (first_packet_flow magic_cookie_version_2 17 (ntohs true 30501)) (by decide)).2.1
    (by decide)

/-- The effect of a confirmation. -/
theorem add_connection_effect (flow : ndpi_flow_struct) :
    confirmed_effect flow (ndpi_int_someip_add_connection flow) :=
  ⟨rfl, rfl⟩

/-- The effect of an exclusion on an unclassified flow. -/
theorem exclude_effect (flow : ndpi_flow_struct) (hU : unclassified flow) :
    excluded_effect flow (exclude_someip flow) :=
  ⟨exclude_someip_bit flow, fun i hi => add_protocol_other_bit _ _ i hi, hU⟩

/-- No flow record shows both effects. -/
theorem effects_disjoint (before after : ndpi_flow_struct) :
    ¬ (confirmed_effect before after ∧ excluded_effect before after) := by
  rintro ⟨⟨h1, _⟩, ⟨_, _, h2⟩⟩
  rw [h1] at h2
  exact absurd h2 (by decide)

/-- With raw reads the function returns, and returns one of the two effects. -/
theorem search_raw_total (beyond : Nat → Nat) (le : Bool) (flow : ndpi_flow_struct)
    (hU : unclassified flow) :
    ndpi_search_someip (fetch_raw beyond) le flow = some (ndpi_int_someip_add_connection flow) ∨
    ndpi_search_someip (fetch_raw beyond) le flow = some (exclude_someip flow) := by
  by_cases hp : 16 ≤ flow.packet.payload.length ∧ passes le flow.packet
  · exact Or.inl ((search_raw_confirm_iff beyond le flow hU).2 hp)
  · exact Or.inr ((search_raw_exclude_iff beyond le flow hU).2 hp)

/-- C13: on a flow whose detected protocol is unknown the function returns a
flow record, and exactly one of the two holds of it: the detected protocol is
SOME/IP and the excluded bitmask is unchanged; or the SOME/IP bit of the
excluded bitmask is set, every other bit is unchanged and the detected protocol
is still unknown. -/
theorem C13_total_two_valued (beyond : Nat → Nat) (le : Bool) (flow : ndpi_flow_struct)
    (hU : unclassified flow) :
    ∃ after, ndpi_search_someip (fetch_raw beyond) le flow = some after ∧
      (confirmed_effect flow after ∨ excluded_effect flow after) ∧
      ¬ (confirmed_effect flow after ∧ excluded_effect flow after) := by
  rcases search_raw_total beyond le flow hU with h | h
  · exact ⟨_, h, Or.inl (add_connection_effect flow), effects_disjoint flow _⟩
  · exact ⟨_, h, Or.inr (exclude_effect flow hU), effects_disjoint flow _⟩

/-- C13 at the general request over TCP to port 30490 on a flow that has
protocol 7 excluded already: the run ends with an exclusion. -/
theorem C13_total_two_valued_witness :
    ∃ after, ndpi_search_someip (fetch_raw fun _ => 0) false
        (flow_in_state NDPI_PROTOCOL_UNKNOWN 128 general_request 6 30490) = some after ∧
      (confirmed_effect (flow_in_state NDPI_PROTOCOL_UNKNOWN 128 general_request 6 30490) after ∨
        excluded_effect (flow_in_state NDPI_PROTOCOL_UNKNOWN 128 general_request 6 30490) after) ∧
      ¬ (confirmed_effect (flow_in_state NDPI_PROTOCOL_UNKNOWN 128 general_request 6 30490) after ∧
        excluded_effect (flow_in_state NDPI_PROTOCOL_UNKNOWN 128 general_request 6 30490) after) :=
  C13_total_two_valued (fun _ => 0) false
    (flow_in_state NDPI_PROTOCOL_UNKNOWN 128 general_request 6 30490) (by decide)

/-- A confirmed flow is classified. -/
theorem add_connection_classified (flow : ndpi_flow_struct) :
    ¬ unclassified (ndpi_int_someip_add_connection flow) := by
  intro h
  have h2 : NDPI_PROTOCOL_SOMEIP = NDPI_PROTOCOL_UNKNOWN := h
  exact absurd h2 (by decide)

/-- Excluding twice is excluding once. -/
theorem exclude_someip_twice (flow : ndpi_flow_struct) :
    exclude_someip (exclude_someip flow) = exclude_someip flow := by
  simp only [exclude_someip, add_protocol_twice]

/-- With raw reads a second run on the same packet changes nothing. -/
theorem search_raw_twice (beyond : Nat → Nat) (le : Bool) (flow : ndpi_flow_struct) :
    (ndpi_search_someip (fetch_raw beyond) le flow).bind (ndpi_search_someip (fetch_raw beyond) le)
      = ndpi_search_someip (fetch_raw beyond) le flow := by
  by_cases hU : unclassified flow
  · by_cases hp : 16 ≤ flow.packet.payload.length ∧ passes le flow.packet
    · rw [(search_raw_confirm_iff beyond le flow hU).2 hp, Option.some_bind]
      exact search_classified _ le _ (add_connection_classified flow)
    · rw [(search_raw_exclude_iff beyond le flow hU).2 hp, Option.some_bind,
        (search_raw_exclude_iff beyond le (exclude_someip flow)
          (exclude_someip_unclassified flow hU)).2 hp, exclude_someip_twice]
  · rw [search_classified _ le flow hU, Option.some_bind, search_classified _ le flow hU]

/-- With checked reads a second run on the same packet changes nothing. -/
theorem search_checked_twice (le : Bool) (flow : ndpi_flow_struct) :
    (ndpi_search_someip fetch_checked le flow).bind (ndpi_search_someip fetch_checked le)
      = ndpi_search_someip fetch_checked le flow := by
  by_cases hU : unclassified flow
  · by_cases hL : 12 ≤ flow.packet.payload.length
    · have h1 := search_checked_eq_raw (fun _ => 0) le flow hL
      have h2 := search_raw_twice (fun _ => 0) le flow
      rw [h1]
      rcases search_raw_total (fun _ => 0) le flow hU with h | h
      · rw [h, Option.some_bind]
        exact search_classified _ le _ (add_connection_classified flow)
      · rw [h, Option.some_bind, search_checked_eq_raw (fun _ => 0) le (exclude_someip flow) hL]
        rw [h, Option.some_bind] at h2
        exact h2
    · rw [search_checked_short le flow hU (by omega)]; rfl
  · rw [search_classified _ le flow hU, Option.some_bind, search_classified _ le flow hU]

/-- C14: for every flow state, classified or not, and every packet, running the
function a second time on the same packet leaves the flow record, its detected
protocol and its excluded bitmask with it, as the first run left it; this holds
with the reads as the machine does them and with reads confined to the
payload, and with the former the first run returns a record that the second
run returns unchanged. -/
theorem C14_second_run_changes_nothing (beyond : Nat → Nat) (le : Bool)
    (flow : ndpi_flow_struct) :
    (ndpi_search_someip (fetch_raw beyond) le flow).bind (ndpi_search_someip (fetch_raw beyond) le)
      = ndpi_search_someip (fetch_raw beyond) le flow ∧
    (ndpi_search_someip fetch_checked le flow).bind (ndpi_search_someip fetch_checked le)
      = ndpi_search_someip fetch_checked le flow ∧
    (∃ once, ndpi_search_someip (fetch_raw beyond) le flow = some once ∧
      ndpi_search_someip (fetch_raw beyond) le once = some once) := by
  refine ⟨search_raw_twice beyond le flow, search_checked_twice le flow, ?_⟩
  have h2 := search_raw_twice beyond le flow
  by_cases hU : unclassified flow
  · rcases search_raw_total beyond le flow hU with h | h
    · rw [h, Option.some_bind] at h2
      exact ⟨_, h, h2⟩
    · rw [h, Option.some_bind] at h2
      exact ⟨_, h, h2⟩
  · exact ⟨flow, search_classified _ le flow hU, search_classified _ le flow hU⟩

/-- C15: a flow whose detected protocol is not unknown is returned as it is,
for every payload, protocol and port and whatever the reads would yield: the
detected protocol and the excluded bitmask are unchanged, nothing is confirmed
and nothing is excluded. -/
theorem C15_classified_flow_skipped (fetch : Fetch) (le : Bool) (flow : ndpi_flow_struct)
    (hC : flow.packet.detected_protocol_stack.1 ≠ NDPI_PROTOCOL_UNKNOWN) :
    ndpi_search_someip fetch le flow = some flow :=
  search_classified fetch le flow hC

/-- C15 at a flow detected as protocol 7 that receives the Magic Cookie over
UDP to port 30501. -/
theorem C15_classified_flow_skipped_witness :
    ndpi_search_someip fetch_checked true (flow_in_state 7 0 magic_cookie 17 (ntohs true 30501))
      = some (flow_in_state 7 0 magic_cookie 17 (ntohs true 30501)) :=
  C15_classified_flow_skipped fetch_checked true
    (flow_in_state 7 0 magic_cookie 17 (ntohs true 30501)) (by decide)

/-- A 32-bit field is the same in two payloads that agree on its four bytes. -/
theorem be32_at_congr (p q : List Nat) (off : Nat)
    (h : ∀ i, off ≤ i → i < off + 4 → payload_byte p i = payload_byte q i) :
    be32_at p off = be32_at q off := by
  simp only [be32_at, h off (by omega) (by omega), h (off + 1) (by omega) (by omega),
    h (off + 2) (by omega) (by omega), h (off + 3) (by omega) (by omega)]

/-- Whether a packet goes to a default port depends on its protocol and on the
destination port of the header in use. -/
theorem default_port_congr (le : Bool) (p q : ndpi_packet_struct)
    (hproto : p.l4_protocol = q.l4_protocol) (hport : dest_port le p = dest_port le q) :
    default_port le p ↔ default_port le q := by
  unfold default_port
  unfold dest_port IPPROTO_UDP at hport
  rw [← hproto] at hport ⊢
  by_cases h17 : p.l4_protocol = 17
  · rw [if_pos h17, if_pos h17] at hport
    rw [hport]
    constructor <;> rintro (h | h)
    · exact Or.inl h
    · omega
    · exact Or.inl h
    · omega
  · rw [if_neg h17, if_neg h17] at hport
    rw [hport]
    constructor <;> rintro (h | h)
    · exact absurd h.1 h17
    · exact Or.inr h
    · exact absurd h.1 h17
    · exact Or.inr h

/-- C16: two unclassified flows whose payloads have the same length and the same
bytes at offsets 0 to 15, and whose packets have the same protocol and the same
destination port, are classified alike, whatever the payload bytes from offset
16 on, the bytes behind the payloads and the rest of the two flow records, the
excluded bitmasks included. -/
theorem C16_depends_on_header_only (b1 b2 : Nat → Nat) (le : Bool) (f1 f2 : ndpi_flow_struct)
    (hU1 : unclassified f1) (hU2 : unclassified f2)
    (hlen : f1.packet.payload.length = f2.packet.payload.length)
    (hbytes : ∀ i, i < 16 → payload_byte f1.packet.payload i = payload_byte f2.packet.payload i)
    (hproto : f1.packet.l4_protocol = f2.packet.l4_protocol)
    (hport : dest_port le f1.packet = dest_port le f2.packet) :
    (ndpi_search_someip (fetch_raw b1) le f1 = some (ndpi_int_someip_add_connection f1)
      ↔ ndpi_search_someip (fetch_raw b2) le f2 = some (ndpi_int_someip_add_connection f2)) ∧
    (ndpi_search_someip (fetch_raw b1) le f1 = some (exclude_someip f1)
      ↔ ndpi_search_someip (fetch_raw b2) le f2 = some (exclude_someip f2)) := by
  have h0 := be32_at_congr f1.packet.payload f2.packet.payload 0
    (fun i _ hi => hbytes i (by omega))
  have h4 := be32_at_congr f1.packet.payload f2.packet.payload 4
    (fun i _ hi => hbytes i (by omega))
  have h8 := be32_at_congr f1.packet.payload f2.packet.payload 8
    (fun i _ hi => hbytes i (by omega))
  exact search_raw_congr b1 b2 le f1 f2 hU1 hU2 hlen
    (passes_congr le _ _ hlen h4 (hbytes 12 (by omega)) (hbytes 14 (by omega))
      (hbytes 15 (by omega)) (by rw [h0]) (fun _ => ⟨h8, hbytes 13 (by omega)⟩)
      (default_port_congr le _ _ hproto hport))

/-- C16 at two requests of 20 bytes with different bodies, different bytes
behind the payload and different excluded bitmasks, both over UDP to port
30501: the second is confirmed as the first is. -/
theorem C16_depends_on_header_only_witness :
    ndpi_search_someip (fetch_raw fun _ => 0xFF) true
        (flow_in_state NDPI_PROTOCOL_UNKNOWN 128
          (request_with_body 0x11 0x22 0x33 0x44) 17 (ntohs true 30501))
      = some (ndpi_int_someip_add_connection
          (flow_in_state NDPI_PROTOCOL_UNKNOWN 128
            (request_with_body 0x11 0x22 0x33 0x44) 17 (ntohs true 30501))) :=
  (C16_depends_on_header_only (fun _ => 0) (fun _ => 0xFF) true
    (first_packet_flow (request_with_body 0xAA 0xBB 0xCC 0xDD) 17 (ntohs true 30501))
    (flow_in_state NDPI_PROTOCOL_UNKNOWN 128
      (request_with_body 0x11 0x22 0x33 0x44) 17 (ntohs true 30501))
    (by decide) (by decide) (by decide) (by decide) (by decide) (by decide)).1.1 (by decide)

/-- C17: for a payload whose message id is no handshake id, replacing the four
bytes of the request id (offsets 8 to 11) and the interface version (offset 13)
by any values leaves the classification as it is, for every protocol and
port. -/
theorem C17_request_id_interface_version_free (beyond : Nat → Nat) (le : Bool)
    (flow : ndpi_flow_struct) (r0 r1 r2 r3 iv : Nat) (hU : unclassified flow)
    (hid : ¬ handshake_id (be32_at flow.packet.payload 0)) :
    (ndpi_search_someip (fetch_raw beyond) le
          (with_payload flow
            (set_request_id_interface_version flow.packet.payload r0 r1 r2 r3 iv))
        = some (ndpi_int_someip_add_connection
            (with_payload flow
              (set_request_id_interface_version flow.packet.payload r0 r1 r2 r3 iv)))
      ↔ ndpi_search_someip (fetch_raw beyond) le flow
          = some (ndpi_int_someip_add_connection flow)) ∧
    (ndpi_search_someip (fetch_raw beyond) le
          (with_payload flow
            (set_request_id_interface_version flow.packet.payload r0 r1 r2 r3 iv))
        = some (exclude_someip
            (with_payload flow
              (set_request_id_interface_version flow.packet.payload r0 r1 r2 r3 iv)))
      ↔ ndpi_search_someip (fetch_raw beyond) le flow = some (exclude_someip flow)) := by
  have hfr := set_request_id_interface_version_frame flow.packet.payload r0 r1 r2 r3 iv
  have h0 := be32_at_congr (set_request_id_interface_version flow.packet.payload r0 r1 r2 r3 iv)
    flow.packet.payload 0
    (fun i _ hi => hfr.2 i (by omega) (by omega) (by omega) (by omega) (by omega))
  have h4 := be32_at_congr (set_request_id_interface_version flow.packet.payload r0 r1 r2 r3 iv)
    flow.packet.payload 4
    (fun i _ hi => hfr.2 i (by omega) (by omega) (by omega) (by omega) (by omega))
  have hid2 : ¬ handshake_id
      (be32_at (set_request_id_interface_version flow.packet.payload r0 r1 r2 r3 iv) 0) := by
    rw [h0]; exact hid
  exact search_raw_congr beyond beyond le _ flow (with_payload_unclassified flow _ hU) hU hfr.1
    (passes_congr le _ _ hfr.1 h4
      (hfr.2 12 (by omega) (by omega) (by omega) (by omega) (by omega))
      (hfr.2 14 (by omega) (by omega) (by omega) (by omega) (by omega))
      (hfr.2 15 (by omega) (by omega) (by omega) (by omega) (by omega))
      ⟨fun x => absurd x hid2, fun x => absurd x hid⟩ (fun x => absurd x hid2) Iff.rfl)

/-- C17 at the general request over UDP to port 30501 with its request id
replaced by `DE AD BE EF` and its interface version by `0xFF`: confirmed as
before. -/
theorem C17_request_id_interface_version_free_witness :
    ndpi_search_someip (fetch_raw fun _ => 0) true
        (with_payload (first_packet_flow general_request 17 (ntohs true 30501))
          (set_request_id_interface_version general_request 0xDE 0xAD 0xBE 0xEF 0xFF))
      = some (ndpi_int_someip_add_connection
          (with_payload (first_packet_flow general_request 17 (ntohs true 30501))
            (set_request_id_interface_version general_request 0xDE 0xAD 0xBE 0xEF 0xFF))) :=
  (C17_request_id_interface_version_free (fun _ => 0) true
    (first_packet_flow general_request 17 (ntohs true 30501)) 0xDE 0xAD 0xBE 0xEF 0xFF
    (by decide) (by decide)).1.2 (by decide)

/-- A payload whose bytes are those of a list of the same length is that list,
byte for byte. -/
theorem bytes_eq_of_payload_byte (payload c : List Nat) (hl : payload.length = c.length)
    (h : ∀ i, i < c.length → payload_byte payload i = c.getD i 0) :
    payload.map (· % 256) = c := by
  refine List.ext_getElem (by simp [hl]) (fun i h1 h2 => ?_)
  have hi := h i h2
  rw [payload_byte, List.getD_eq_getElem _ _ (by omega), List.getD_eq_getElem _ _ h2] at hi
  simpa only [List.getElem_map] using hi

/-- A byte of a payload is below 256. -/
theorem payload_byte_lt (payload : List Nat) (i : Nat) : payload_byte payload i < 256 := by
  unfold payload_byte; omega

/-- C18: a payload with a handshake message id that the function confirms has
exactly 16 bytes and is, byte for byte, the Magic Cookie
`FF FF 00 00 00 00 00 08 DE AD BE EF 01 01 01 00` or the Magic Cookie ACK
`FF FF 80 00 00 00 00 08 DE AD BE EF 01 01 01 00`, for every protocol and
port. -/
theorem C18_confirmed_handshake_exact (beyond : Nat → Nat) (le : Bool)
    (flow : ndpi_flow_struct) (hU : unclassified flow)
    (hid : handshake_id (be32_at flow.packet.payload 0))
    (hc : ndpi_search_someip (fetch_raw beyond) le flow
      = some (ndpi_int_someip_add_connection flow)) :
    flow.packet.payload.length = 16 ∧
    (flow.packet.payload.map (· % 256) = magic_cookie ∨
      flow.packet.payload.map (· % 256) = magic_cookie_ack) := by
  obtain ⟨h16, h2, h3, _, _, h6⟩ := (search_raw_confirm_iff beyond le flow hU).1 hc
  have hf : handshake_fields flow.packet.payload :=
    h6.elim (fun x => x.2) (fun x => absurd hid x.1)
  obtain ⟨f1, f2, f3, f4, f5⟩ := hf
  have hlen : flow.packet.payload.length = 16 := by rw [h2, f1]
  refine ⟨hlen, ?_⟩
  have b := payload_byte_lt flow.packet.payload
  have b0 := b 0; have b1 := b 1; have b2 := b 2; have b3 := b 3
  have b4 := b 4; have b5 := b 5; have b6 := b 6; have b7 := b 7
  have b8 := b 8; have b9 := b 9; have b10 := b 10; have b11 := b 11
  simp only [be32_at, Nat.reduceAdd, zero_add] at f1 f2 hid
  unfold handshake_id at hid
  rcases hid with hid | hid
  · refine Or.inl (bytes_eq_of_payload_byte _ _ (by rw [hlen]; rfl) (fun i hi => ?_))
    have hi16 : i < 16 := hi
    interval_cases i <;> simp only [magic_cookie, List.getD_cons_zero, List.getD_cons_succ] <;>
      omega
  · refine Or.inr (bytes_eq_of_payload_byte _ _ (by rw [hlen]; rfl) (fun i hi => ?_))
    have hi16 : i < 16 := hi
    interval_cases i <;> simp only [magic_cookie_ack, List.getD_cons_zero, List.getD_cons_succ] <;>
      omega

/-- C18 at the Magic Cookie ACK over TCP to port 80. -/
theorem C18_confirmed_handshake_exact_witness :
    (first_packet_flow magic_cookie_ack 6 (ntohs true 80)).packet.payload.length = 16 ∧
    ((first_packet_flow magic_cookie_ack 6 (ntohs true 80)).packet.payload.map (· % 256)
        = magic_cookie ∨
      (first_packet_flow magic_cookie_ack 6 (ntohs true 80)).packet.payload.map (· % 256)
        = magic_cookie_ack) :=
  C18_confirmed_handshake_exact (fun _ => 0) true
    (first_packet_flow magic_cookie_ack 6 (ntohs true 80)) (by decide) (by decide) (by decide)

/-- C19: for every 16-bit value of the destination port field and each of the
three default ports, on a big-endian host (`ntohs` the identity) and on a
little-endian host (`ntohs` the byte swap), the test of the source,
`dest == ntohs(P)`, holds if and only if the port number decoded from the
wire, `ntohs(dest)`, is `P`. -/
theorem C19_port_test_byte_order (le : Bool) (d : Nat) (hd : d < 65536) :
    (d = ntohs le PORT_DEFAULT_CLIENT ↔ ntohs le d = 30491) ∧
    (d = ntohs le PORT_DEFAULT_SERVER ↔ ntohs le d = 30501) ∧
    (d = ntohs le PORT_DEFAULT_SD ↔ ntohs le d = 30490) ∧
    ntohs false d = d ∧ ntohs true d = bswap16 d := by
  have hm : d % 65536 = d := Nat.mod_eq_of_lt hd
  have h1 := ntohs_test le d PORT_DEFAULT_CLIENT (by decide)
  have h2 := ntohs_test le d PORT_DEFAULT_SERVER (by decide)
  have h3 := ntohs_test le d PORT_DEFAULT_SD (by decide)
  rw [hm] at h1 h2 h3
  exact ⟨h1, h2, h3, hm, rfl⟩

/-- C19 on a little-endian host at the field value `0x2577`, the bytes `77 25`
of port 30501 on the wire. -/
theorem C19_port_test_byte_order_witness :
    0x2577 = ntohs true PORT_DEFAULT_SERVER ∧ ntohs true 0x2577 = 30501 :=
  ⟨(C19_port_test_byte_order true 0x2577 (by decide)).2.1.2 (by decide), by decide⟩

end SOMEIP
